import Mathlib

/-!
Shallow embedding of the extraction pipeline of `src/intelligent_scraper.py`
(class `IntelligentHotelScraper` and dataclass `IntelligentHotelInfo`).

Modelling conventions:
* Python strings are Lean `String`s; all character-level operations
  (slicing, `find`, `split`, `lower`, `title`, `strip`) are re-implemented
  over `List Char` so that every definition reduces in the kernel.
* External libraries are modelled as oracles carried in a `ScraperEnv`:
  `re.search` for a given pattern string, `json.loads`, the spaCy NER model
  (`self.nlp`, which may raise), the OpenAI chat completion (returning the
  raw response text, or raising), and the local text-generation pipeline.
  The pattern strings themselves are carried verbatim from the source.
* A parsed page (`BeautifulSoup` object) is modelled by the `Soup`
  structure holding the pieces of the page the extractors consult:
  the full text (`soup.get_text()`), the texts of the content elements
  scanned by `_extract_meaningful_content`, the hotel-name candidates of
  the seven selector strategies, and the elements matched by the
  restaurant/room `find_all` queries.
* An uncaught Python exception is an `Except.error`; extractor coroutines
  therefore return `Except String IntelligentHotelInfo`.  `asyncio.gather`
  without `return_exceptions` propagates the first exception, and the
  surrounding `try`/`except` of `scrape_hotel_intelligent` logs it and
  re-raises, which the embedding renders as `Except.error`.
* Python `float` arithmetic of the confidence scorer is modelled with `ℚ`;
  all weights are small decimal constants and every operation used
  (sum, `min`, division by a small integer) is exact here.
-/

/-- Python `len(s)` (number of code points). -/
def pyLen (s : String) : Nat := s.toList.length

/-- Python slicing `s[:n]`. -/
def pyTake (n : Nat) (s : String) : String := String.mk (s.toList.take n)

/-- Python `s.lower()`. -/
def pyLower (s : String) : String := String.mk (s.toList.map Char.toLower)

/-- Python whitespace test used by `str.strip()`. -/
def pySpace (c : Char) : Bool := c == ' ' || c == '\t' || c == '\n' || c == '\r'

/-- Python `s.strip()`. -/
def pyStrip (s : String) : String :=
  String.mk (((s.toList.dropWhile pySpace).reverse.dropWhile pySpace).reverse)

/-- Does the list start with the given pattern?  (Helper for substring search.) -/
def startsWithList : List Char → List Char → Bool
  | _, [] => true
  | [], _ :: _ => false
  | c :: cs, p :: ps => c == p && startsWithList cs ps

/-- Python `pat in s` on the character-list level. -/
def hasSubList (pat : List Char) : List Char → Bool
  | [] => startsWithList [] pat
  | c :: cs => startsWithList (c :: cs) pat || hasSubList pat cs

/-- Python `pat in s` for strings. -/
def strContainsSub (s pat : String) : Bool := hasSubList pat.toList s.toList

/-- Python `s.find(pat)`: index of the first occurrence (`none` for `-1`). -/
def findSubIdx (pat : List Char) : List Char → Option Nat
  | [] => if startsWithList [] pat then some 0 else none
  | c :: cs =>
      if startsWithList (c :: cs) pat then some 0
      else (findSubIdx pat cs).map (· + 1)

/-- Python `s.startswith(p)`. -/
def pyStartsWith (s p : String) : Bool := startsWithList s.toList p.toList

/-- Worker for `pySplit`; `sep` is assumed non-empty (as in every use site). -/
def splitOnGo (sep : List Char) : List Char → List Char → List (List Char)
  | [], acc => [acc.reverse]
  | c :: cs, acc =>
      if startsWithList (c :: cs) sep then
        acc.reverse :: splitOnGo sep (List.drop (sep.length - 1) cs) []
      else
        splitOnGo sep cs (c :: acc)
termination_by l _ => l.length
decreasing_by
  · simp only [List.length_cons, List.length_drop]; omega
  · simp only [List.length_cons]; omega

/-- Python `s.split(sep)` for a non-empty separator. -/
def pySplit (s sep : String) : List String :=
  (splitOnGo sep.toList s.toList []).map String.mk

/-- Python `sep.join(xs)`. -/
def joinSep (sep : String) : List String → String
  | [] => ""
  | [x] => x
  | x :: y :: rest => x ++ sep ++ joinSep sep (y :: rest)

/-- Capitalize one word: first char uppercased, rest lowercased. -/
def capWord (w : String) : String :=
  match w.toList with
  | [] => ""
  | c :: cs => String.mk (c.toUpper :: cs.map Char.toLower)

/-- Python `s.title()` for the space-separated keywords used in the source
(none of the keywords passed to `.title()` contains other separators). -/
def pyTitle (s : String) : String := joinSep " " ((pySplit s " ").map capWord)

/-- A value inside one of the nested dict/list shapes the extractors build
(`str`, `bool` and nested dict cover every value the source constructs). -/
inductive Val where
  | str : String → Val
  | bool : Bool → Val
  | dict : List (String × Val) → Val

/-- A Python `Dict[str, ...]` as built by the amenity/dining extractors. -/
abbrev StrDict := List (String × Val)

/-- The JSON object parsed from an OpenAI response, restricted to string
values; `""` models both an empty string and JSON `null` (both falsy, and
only truthy values are ever read out of the dict by the source). -/
abbrev PyDict := List (String × String)

/-- A spaCy entity: `ent.label_` and `ent.text`. -/
structure Ent where
  label : String
  text : String

/-- A `re.Match`: `match.group()` and `match.group(1)`. -/
structure ReMatch where
  group0 : String
  group1 : String := ""

/-- An element returned by a `soup.find_all` query: the text of its first
`h1`-`h4` descendant (if any) and its own `get_text(strip=True)` text. -/
structure SoupElement where
  headerText : Option String
  text : String

/-- The parsed page, holding exactly the projections of the
`BeautifulSoup` object that the extraction pipeline consults. -/
structure Soup where
  fullText : String
  contentBlocks : List String
  nameCandidates : List (Option String)
  restaurantBlocks : List SoupElement
  roomBlocks : List SoupElement

/-- Oracles for the external collaborators plus the scraper's feature
flags; `use_openai` combines `USE_OPENAI_API ∧ OPENAI_AVAILABLE`, `nlp` is
`some f` when the spaCy model loaded (`f` may raise), `openaiResponses`
maps (extraction_type, content sent) to the raw chat-completion text
(`none` models an exception inside the API call), and `textGen` is the
local text-generation pipeline. -/
structure ScraperEnv where
  use_openai : Bool
  use_ai : Bool
  nlp : Option (String → Except String (List Ent))
  jsonLoads : String → Option PyDict
  reSearch : String → String → Option ReMatch
  openaiResponses : String → String → Option String
  textGen : Option (String → Except String String)

/-- Python truthiness of an `Optional[str]`. -/
def optStrTruthy : Option String → Bool
  | some s => s != ""
  | none => false

/-- Python truthiness of an `Optional[Dict]`. -/
def optDictTruthy : Option StrDict → Bool
  | some d => !d.isEmpty
  | none => false

/-- Python truthiness of an optional list of values. -/
def optValListTruthy : Option (List Val) → Bool
  | some l => !l.isEmpty
  | none => false

/-- Python truthiness of an optional list of strings. -/
def optStrListTruthy : Option (List String) → Bool
  | some l => !l.isEmpty
  | none => false

/-- The dataclass `IntelligentHotelInfo` (field for field; `ℚ` stands for
`float`, `Option` for `Optional`, and the AI-era dict shapes use `Val`). -/
structure IntelligentHotelInfo where
  hotel_name : String
  website_url : String
  scraped_at : String
  confidence_score : ℚ := 0
  phone : Option String := none
  email : Option String := none
  address : Option String := none
  city : Option String := none
  state : Option String := none
  zip_code : Option String := none
  coordinates : Option StrDict := none
  checkin_time : Option String := none
  checkout_time : Option String := none
  early_checkin_policy : Option String := none
  late_checkout_policy : Option String := none
  cancellation_policy : Option String := none
  deposit_policy : Option String := none
  age_restrictions : Option String := none
  parking_available : Option Bool := none
  parking_cost : Option String := none
  parking_type : Option String := none
  parking_spaces : Option Int := none
  shuttle_service : Option String := none
  public_transit_info : Option String := none
  distance_to_airport : Option String := none
  wifi_info : Option String := none
  fitness_center : Option StrDict := none
  pool : Option StrDict := none
  spa_services : Option (List String) := none
  business_center : Option StrDict := none
  pet_policy : Option StrDict := none
  smoking_policy : Option String := none
  accessibility_features : Option (List String) := none
  restaurants : Option (List Val) := none
  room_service : Option StrDict := none
  breakfast_info : Option StrDict := none
  bars_lounges : Option (List Val) := none
  room_types : Option (List Val) := none
  room_amenities : Option (List String) := none
  room_sizes : Option StrDict := none
  nearby_attractions : Option (List Val) := none
  nearby_restaurants : Option (List Val) := none
  nearby_shopping : Option (List Val) := none
  nearby_transportation : Option (List Val) := none
  walkability_score : Option ℚ := none
  concierge_services : Option (List String) := none
  laundry_service : Option StrDict := none
  luggage_storage : Option String := none
  meeting_facilities : Option StrDict := none
  event_services : Option (List String) := none
  sentiment_score : Option ℚ := none
  key_selling_points : Option (List String) := none
  target_audience : Option (List String) := none
  price_range_indicator : Option String := none
  unique_features : Option (List String) := none
  content_completeness_score : Option ℚ := none
  data_freshness_indicators : Option (List String) := none

/-- Constructing `IntelligentHotelInfo(hotel_name=n, website_url=u,
scraped_at=t)` before `__post_init__` runs: every optional field keeps its
dataclass default `None`. -/
def defaultInfo (n u t : String) : IntelligentHotelInfo :=
  { hotel_name := n, website_url := u, scraped_at := t }

/-- `IntelligentHotelInfo.__post_init__`: each of the sixteen list-typed
fields is replaced by `[]` when it is `None`. -/
def post_init (i : IntelligentHotelInfo) : IntelligentHotelInfo :=
  { i with
    restaurants := some (i.restaurants.getD [])
    spa_services := some (i.spa_services.getD [])
    accessibility_features := some (i.accessibility_features.getD [])
    bars_lounges := some (i.bars_lounges.getD [])
    room_types := some (i.room_types.getD [])
    room_amenities := some (i.room_amenities.getD [])
    nearby_attractions := some (i.nearby_attractions.getD [])
    nearby_restaurants := some (i.nearby_restaurants.getD [])
    nearby_shopping := some (i.nearby_shopping.getD [])
    nearby_transportation := some (i.nearby_transportation.getD [])
    concierge_services := some (i.concierge_services.getD [])
    event_services := some (i.event_services.getD [])
    key_selling_points := some (i.key_selling_points.getD [])
    target_audience := some (i.target_audience.getD [])
    unique_features := some (i.unique_features.getD [])
    data_freshness_indicators := some (i.data_freshness_indicators.getD []) }

/-- The boilerplate markers of `_extract_meaningful_content`. -/
def nav_words : List String := ["overview", "menu", "click here", "read more", "view all"]

/-- One block qualifies as meaningful: `len(text) > 20` and no boilerplate
marker occurs in its lowercased text. -/
def isMeaningfulBlock (t : String) : Bool :=
  decide (20 < pyLen t) && !(nav_words.any (fun w => strContainsSub (pyLower t) w))

/-- `_extract_meaningful_content`: keep the qualifying blocks, cap at the
first ten, and join them with single spaces.  (There is no fallback branch
in the source: with no qualifying block the result is the empty string.) -/
def extract_meaningful_content (blocks : List String) : String :=
  joinSep " " ((blocks.filter isMeaningfulBlock).take 10)

/-- `_extract_context_around_keyword(text, keyword, context_size)`:
`text.find(keyword.lower())`, then the slice
`text[max(0, pos - size) : min(len(text), pos + len(keyword) + size)]`
(`""` when the keyword is absent). -/
def extract_context_around_keyword (text keyword : String) (contextSize : Nat) : String :=
  match findSubIdx (pyLower keyword).toList text.toList with
  | none => ""
  | some pos =>
      let st := pos - contextSize
      let en := min (pyLen text) (pos + pyLen keyword + contextSize)
      String.mk ((text.toList.drop st).take (en - st))

/-- The extraction types for which `_extract_with_openai` has a prompt. -/
def openai_prompt_types : List String := ["hotel_info", "policies", "amenities", "dining"]

/-- The code-fence cleanup of `_extract_with_openai`:
`split("```json")[1].split("```")[0]` when the stripped response starts
with a fence (the guard makes index 1 always exist). -/
def stripCodeFences (rt : String) : String :=
  if pyStartsWith rt "```json" then
    ((pySplit ((pySplit rt "```json").getD 1 "") "```").headD "")
  else if pyStartsWith rt "```" then
    ((pySplit ((pySplit rt "```").getD 1 "") "```").headD "")
  else rt

/-- `_extract_with_openai(content, extraction_type)`: returns `{}` when the
feature flags are off, when no prompt exists for the type, when the API
call raises, or when `json.loads` fails on the (fence-stripped, stripped)
response; otherwise the parsed JSON object.  The prompt embeds
`content[:3000]`, so the response oracle receives that slice. -/
def extract_with_openai (env : ScraperEnv) (content extraction_type : String) : PyDict :=
  if !env.use_openai then []
  else if !(openai_prompt_types.contains extraction_type) then []
  else
    match env.openaiResponses extraction_type (pyTake 3000 content) with
    | none => []
    | some result_text =>
        let rt := pyStrip result_text
        match env.jsonLoads (stripCodeFences rt) with
        | some d => d
        | none => []

/-- Python dict lookup over the association-list model (keys are unique in
a parsed JSON object; first match). -/
def pyDictGet (d : PyDict) (k : String) : Option String :=
  match d with
  | [] => none
  | kv :: rest => if kv.1 == k then some kv.2 else pyDictGet rest k

/-- Look a field up in a parsed OpenAI dict, returning it only when it is
present and truthy (`if field in openai_result and openai_result[field]`). -/
def dictGetTruthy (d : PyDict) (k : String) : Option String :=
  match pyDictGet d k with
  | some v => if v != "" then some v else none
  | none => none

/-- The OpenAI branch of `_extract_contact_info_ai`: write each truthy
field of the parsed dict, plus `hotel_name`. -/
def applyContactOpenai (d : PyDict) (i : IntelligentHotelInfo) : IntelligentHotelInfo :=
  let i := match dictGetTruthy d "phone" with
    | some v => { i with phone := some v } | none => i
  let i := match dictGetTruthy d "email" with
    | some v => { i with email := some v } | none => i
  let i := match dictGetTruthy d "address" with
    | some v => { i with address := some v } | none => i
  let i := match dictGetTruthy d "city" with
    | some v => { i with city := some v } | none => i
  let i := match dictGetTruthy d "state" with
    | some v => { i with state := some v } | none => i
  let i := match dictGetTruthy d "zip_code" with
    | some v => { i with zip_code := some v } | none => i
  match dictGetTruthy d "hotel_name" with
  | some v => { i with hotel_name := v } | none => i

/-- One step of the NER loop of the contact fallback: a `PERSON` entity
containing `@` sets `email`; else a `GPE`/`LOC` entity sets `address`
when `address` is still falsy. -/
def contactEntStep (i : IntelligentHotelInfo) (e : Ent) : IntelligentHotelInfo :=
  if e.label == "PERSON" && strContainsSub e.text "@" then
    { i with email := some e.text }
  else if (e.label == "GPE" || e.label == "LOC") && !(optStrTruthy i.address) then
    { i with address := some e.text }
  else i

/-- The three phone regexes of `_extract_contact_info_ai` (literal braces
written as escapes). -/
def phone_patterns : List String :=
  ["\\b(?:\\+?1[-.\\s]?)?\\(?([0-9]\x7b3\x7d)\\)?[-.\\s]?([0-9]\x7b3\x7d)[-.\\s]?([0-9]\x7b4\x7d)\\b",
   "\\b\\d\x7b3\x7d[-.]?\\d\x7b3\x7d[-.]?\\d\x7b4\x7d\\b",
   "\\(\\d\x7b3\x7d\\)\\s*\\d\x7b3\x7d[-.]?\\d\x7b4\x7d"]

/-- The email regex shared by the contact fallback and
`_basic_content_extraction`. -/
def email_pattern : String :=
  "\\b[A-Za-z0-9._%+-]+@[A-Za-z0-9.-]+\\.[A-Z|a-z]\x7b2,\x7d\\b"

/-- The phone loop of the contact fallback: the first pattern with a match
sets `phone` to `match.group()` and breaks. -/
def applyPhonePatterns (re : String → String → Option ReMatch)
    (text : String) (i : IntelligentHotelInfo) : IntelligentHotelInfo :=
  match phone_patterns.findSome? (fun p => re p text) with
  | some m => { i with phone := some m.group0 }
  | none => i

/-- The email search of the contact fallback, guarded by
`if email_match and not hotel_info.email`. -/
def applyEmailPattern (re : String → String → Option ReMatch)
    (text : String) (i : IntelligentHotelInfo) : IntelligentHotelInfo :=
  match re email_pattern text with
  | some m => if !(optStrTruthy i.email) then { i with email := some m.group0 } else i
  | none => i

/-- The traditional part of `_extract_contact_info_ai`: NER over
`text[:2000]` when `use_ai` and the spaCy model loaded (the model call may
raise, which propagates), then the phone patterns and the email pattern
over the full text. -/
def contactFallback (env : ScraperEnv) (soup : Soup) (i : IntelligentHotelInfo) :
    Except String IntelligentHotelInfo :=
  let text := soup.fullText
  let step1 : Except String IntelligentHotelInfo :=
    if env.use_ai then
      match env.nlp with
      | some f =>
          match f (pyTake 2000 text) with
          | Except.ok ents => Except.ok (ents.foldl contactEntStep i)
          | Except.error e => Except.error e
      | none => Except.ok i
    else Except.ok i
  match step1 with
  | Except.error e => Except.error e
  | Except.ok i1 => Except.ok (applyEmailPattern env.reSearch text (applyPhonePatterns env.reSearch text i1))

/-- `_extract_contact_info_ai`: when the OpenAI flags are set, the
meaningful content is extracted and sent; a truthy (non-empty) parsed dict
updates the record and returns early, otherwise the traditional fallback
runs. -/
def extract_contact_info_ai (env : ScraperEnv) (soup : Soup) (i : IntelligentHotelInfo) :
    Except String IntelligentHotelInfo :=
  if env.use_openai then
    let content := extract_meaningful_content soup.contentBlocks
    let d := extract_with_openai env content "hotel_info"
    if d != [] then Except.ok (applyContactOpenai d i)
    else contactFallback env soup i
  else contactFallback env soup i

/-- The policy fields the OpenAI branch of `_extract_policies_ai` writes,
in source order. -/
def applyPoliciesOpenai (d : PyDict) (i : IntelligentHotelInfo) : IntelligentHotelInfo :=
  let i := match dictGetTruthy d "checkin_time" with
    | some v => { i with checkin_time := some v } | none => i
  let i := match dictGetTruthy d "checkout_time" with
    | some v => { i with checkout_time := some v } | none => i
  let i := match dictGetTruthy d "cancellation_policy" with
    | some v => { i with cancellation_policy := some v } | none => i
  let i := match dictGetTruthy d "deposit_policy" with
    | some v => { i with deposit_policy := some v } | none => i
  let i := match dictGetTruthy d "age_restrictions" with
    | some v => { i with age_restrictions := some v } | none => i
  let i := match dictGetTruthy d "early_checkin_policy" with
    | some v => { i with early_checkin_policy := some v } | none => i
  match dictGetTruthy d "late_checkout_policy" with
  | some v => { i with late_checkout_policy := some v } | none => i

/-- The three check-in regexes of the policies fallback. -/
def checkin_patterns : List String :=
  ["check[- ]?in(?:\\s+time)?:?\\s*(\\d\x7b1,2\x7d:?\\d\x7b0,2\x7d\\s*[ap]m)",
   "arrival(?:\\s+time)?:?\\s*(\\d\x7b1,2\x7d:?\\d\x7b0,2\x7d\\s*[ap]m)",
   "checkin\\s+(?:starts?|begins?)\\s+(?:at\\s+)?(\\d\x7b1,2\x7d:?\\d\x7b0,2\x7d\\s*[ap]m)"]

/-- The three check-out regexes of the policies fallback. -/
def checkout_patterns : List String :=
  ["check[- ]?out(?:\\s+time)?:?\\s*(\\d\x7b1,2\x7d:?\\d\x7b0,2\x7d\\s*[ap]m)",
   "departure(?:\\s+time)?:?\\s*(\\d\x7b1,2\x7d:?\\d\x7b0,2\x7d\\s*[ap]m)",
   "checkout\\s+(?:is\\s+)?(?:by\\s+)?(\\d\x7b1,2\x7d:?\\d\x7b0,2\x7d\\s*[ap]m)"]

/-- The time loop of the policies fallback: for check-in and then
check-out, the first matching pattern sets the field to `match.group(1)`
and breaks the inner loop. -/
def applyTimePatterns (re : String → String → Option ReMatch)
    (text : String) (i : IntelligentHotelInfo) : IntelligentHotelInfo :=
  let i := match checkin_patterns.findSome? (fun p => re p text) with
    | some m => { i with checkin_time := some m.group1 } | none => i
  match checkout_patterns.findSome? (fun p => re p text) with
  | some m => { i with checkout_time := some m.group1 } | none => i

/-- The dollar-amount regex of the parking analysis. -/
def parking_cost_pattern : String := "\\$(\\d+(?:\\.\\d\x7b2\x7d)?)"

/-- The `if`/`elif` chain of the parking analysis classifying parking
cost/type by keyword containment in the context window. -/
def parkingCostType (parking_context : String) (i : IntelligentHotelInfo) :
    IntelligentHotelInfo :=
  if ["free", "complimentary", "no charge"].any
      (fun w => strContainsSub parking_context w) then
    { i with parking_cost := some "Free" }
  else if strContainsSub parking_context "valet" then
    { i with parking_type := some "Valet" }
  else if ["self-park", "self park", "self service"].any
      (fun w => strContainsSub parking_context w) then
    { i with parking_type := some "Self-park" }
  else i

/-- The parking analysis of the policies fallback: a non-empty context
window around `"parking"` sets `parking_available = True`, classifies
cost/type by keyword, and finally overrides the cost with a matched
dollar amount. -/
def applyParking (re : String → String → Option ReMatch)
    (text : String) (i : IntelligentHotelInfo) : IntelligentHotelInfo :=
  let parking_context := extract_context_around_keyword text "parking" 100
  if parking_context != "" then
    let i := { i with parking_available := some true }
    let i := parkingCostType parking_context i
    match re parking_cost_pattern parking_context with
    | some m => { i with parking_cost := some ("$" ++ m.group1) }
    | none => i
  else i

/-- The traditional part of `_extract_policies_ai`, over the lowercased
page text: time patterns, then the parking analysis. -/
def extract_policies_fallback (env : ScraperEnv) (soup : Soup)
    (i : IntelligentHotelInfo) : IntelligentHotelInfo :=
  let text := pyLower soup.fullText
  applyParking env.reSearch text (applyTimePatterns env.reSearch text i)

/-- `_extract_policies_ai`: OpenAI branch with early return on a truthy
parsed dict, else the pattern fallback. -/
def extract_policies_ai (env : ScraperEnv) (soup : Soup) (i : IntelligentHotelInfo) :
    Except String IntelligentHotelInfo :=
  if env.use_openai then
    let content := extract_meaningful_content soup.contentBlocks
    let d := extract_with_openai env content "policies"
    if d != [] then Except.ok (applyPoliciesOpenai d i)
    else Except.ok (extract_policies_fallback env soup i)
  else Except.ok (extract_policies_fallback env soup i)

/-- The ordered amenity categories of `_extract_amenities_ai`. -/
def amenity_categories : List (String × List String) :=
  [("wifi", ["wifi", "wi-fi", "internet", "wireless"]),
   ("fitness", ["fitness", "gym", "exercise", "workout"]),
   ("pool", ["pool", "swimming", "aquatic"]),
   ("spa", ["spa", "massage", "wellness", "treatment"]),
   ("business", ["business center", "meeting room", "conference"]),
   ("pets", ["pet", "dog", "cat", "animal"]),
   ("accessibility", ["accessible", "wheelchair", "ada", "disability"])]

/-- The hour-range regex shared by the amenity, dining and room-service
extraction. -/
def hours_pattern : String :=
  "(\\d\x7b1,2\x7d:?\\d\x7b0,2\x7d\\s*[ap]m.*?\\d\x7b1,2\x7d:?\\d\x7b0,2\x7d\\s*[ap]m)"

/-- One category of the amenity loop: the first keyword found in the text
fixes the context window and the category handler runs (the `business` and
`accessibility` categories have no handler in the source and change
nothing). -/
def amenityCategoryStep (re : String → String → Option ReMatch) (text : String)
    (i : IntelligentHotelInfo) (cat : String × List String) : IntelligentHotelInfo :=
  match cat.2.find? (fun k => strContainsSub text k) with
  | none => i
  | some keyword =>
      let context := extract_context_around_keyword text keyword 80
      if cat.1 == "wifi" then
        if ["free", "complimentary"].any (fun t => strContainsSub context t) then
          { i with wifi_info := some "Free WiFi available" }
        else
          { i with wifi_info := some "WiFi available" }
      else if cat.1 == "fitness" then
        { i with fitness_center := some (
            [("available", Val.bool true),
             ("hours", Val.str (match re hours_pattern context with
               | some m => m.group1
               | none => "Check with hotel")),
             ("details", Val.str (pyTake 100 context))]) }
      else if cat.1 == "pool" then
        let pool_type := (["indoor", "outdoor", "heated", "seasonal"].find?
          (fun p => strContainsSub context p)).getD "Standard"
        { i with pool := some (
            [("available", Val.bool true),
             ("type", Val.str pool_type),
             ("details", Val.str (pyTake 100 context))]) }
      else if cat.1 == "spa" then
        let cur := i.spa_services.getD []
        let found := ["massage", "facial", "manicure", "pedicure", "sauna"].filter
          (fun s => strContainsSub context s)
        { i with spa_services := some (cur ++ found) }
      else if cat.1 == "pets" then
        if strContainsSub context "friendly" || strContainsSub context "welcome" then
          { i with pet_policy := some (
              [("allowed", Val.bool true), ("details", Val.str (pyTake 100 context))]) }
        else if strContainsSub context "not allowed" || strContainsSub context "no pets" then
          { i with pet_policy := some (
              [("allowed", Val.bool false), ("details", Val.str (pyTake 100 context))]) }
        else i
      else i

/-- `_extract_amenities_ai`: fold the category loop over the lowercased
page text. -/
def extract_amenities_ai (env : ScraperEnv) (soup : Soup) (i : IntelligentHotelInfo) :
    Except String IntelligentHotelInfo :=
  Except.ok (amenity_categories.foldl
    (amenityCategoryStep env.reSearch (pyLower soup.fullText)) i)

/-- The cuisine keywords of `_extract_dining_info_ai`. -/
def cuisine_keywords : List String :=
  ["italian", "asian", "american", "french", "mexican", "seafood", "steakhouse"]

/-- One restaurant element: kept when its text exceeds 20 characters, with
name from the first `h1`-`h4` (default `"Restaurant"`), cuisine by keyword
containment (default `"International"`), hours by regex over the lowered
text (default `"Check with hotel"`). -/
def diningElementDict (re : String → String → Option ReMatch)
    (el : SoupElement) : Option Val :=
  let restaurant_text := el.text
  if decide (20 < pyLen restaurant_text) then
    some (Val.dict
      [("name", Val.str (el.headerText.getD "Restaurant")),
       ("cuisine", Val.str ((cuisine_keywords.find?
          (fun c => strContainsSub (pyLower restaurant_text) c)).getD "International")),
       ("hours", Val.str (match re hours_pattern (pyLower restaurant_text) with
          | some m => m.group1
          | none => "Check with hotel")),
       ("details", Val.str (pyTake 200 restaurant_text))])
  else none

/-- The room-service part of `_extract_dining_info_ai`. -/
def applyRoomService (re : String → String → Option ReMatch)
    (text : String) (i : IntelligentHotelInfo) : IntelligentHotelInfo :=
  if strContainsSub text "room service" then
    let ctx := extract_context_around_keyword text "room service" 100
    { i with room_service := some (
        [("available", Val.bool true),
         ("hours", Val.str (match re hours_pattern ctx with
            | some m => m.group1
            | none => "24 hours")),
         ("details", Val.str (pyTake 100 ctx))]) }
  else i

/-- The breakfast part of `_extract_dining_info_ai`: first breakfast
keyword present fixes the context; complimentary/buffet keywords decide
type and cost. -/
def applyBreakfast (text : String) (i : IntelligentHotelInfo) : IntelligentHotelInfo :=
  match ["breakfast", "morning meal", "continental breakfast"].find?
      (fun k => strContainsSub text k) with
  | none => i
  | some keyword =>
      let ctx := extract_context_around_keyword text keyword 100
      let tc : String × String :=
        if strContainsSub ctx "complimentary" || strContainsSub ctx "free" then
          ("Continental", "Complimentary")
        else if strContainsSub ctx "buffet" then
          ("Buffet", "Additional charge")
        else ("Continental", "Check with hotel")
      { i with breakfast_info := some (
          [("available", Val.bool true),
           ("type", Val.str tc.1),
           ("cost", Val.str tc.2),
           ("details", Val.str (pyTake 100 ctx))]) }

/-- `_extract_dining_info_ai`: the first five restaurant elements filtered
by length become the `restaurants` list (written unconditionally), then
room service and breakfast over the lowercased page text. -/
def extract_dining_info_ai (env : ScraperEnv) (soup : Soup) (i : IntelligentHotelInfo) :
    Except String IntelligentHotelInfo :=
  let restaurants := (soup.restaurantBlocks.take 5).filterMap (diningElementDict env.reSearch)
  let i := { i with restaurants := some restaurants }
  let text := pyLower soup.fullText
  Except.ok (applyBreakfast text (applyRoomService env.reSearch text i))

/-- One entity of the nearby loop: `ORG`/`GPE`/`FAC` entities are
categorized by keyword containment in the lowercased entity text into
attractions, restaurants or shopping. -/
def nearbyStep (acc : List Val × List Val × List Val) (e : Ent) :
    List Val × List Val × List Val :=
  if e.label == "ORG" || e.label == "GPE" || e.label == "FAC" then
    let entity_text := pyLower e.text
    if ["museum", "park", "theater", "gallery", "center"].any
        (fun k => strContainsSub entity_text k) then
      (acc.1 ++ [Val.dict [("name", Val.str e.text), ("type", Val.str "Attraction"),
                          ("distance", Val.str "Unknown")]], acc.2.1, acc.2.2)
    else if ["restaurant", "cafe", "bar", "bistro"].any
        (fun k => strContainsSub entity_text k) then
      (acc.1, acc.2.1 ++ [Val.dict [("name", Val.str e.text), ("type", Val.str "Restaurant"),
                                    ("distance", Val.str "Unknown")]], acc.2.2)
    else if ["mall", "shop", "market", "store"].any
        (fun k => strContainsSub entity_text k) then
      (acc.1, acc.2.1, acc.2.2 ++ [Val.dict [("name", Val.str e.text),
                                             ("type", Val.str "Shopping"),
                                             ("distance", Val.str "Unknown")]])
    else acc
  else acc

/-- `_extract_nearby_info_ai`: only runs the NER categorization when
`use_ai` and the spaCy model loaded (over `text[:3000]`, raw case); the
three nearby lists are capped at ten entries. -/
def extract_nearby_info_ai (env : ScraperEnv) (soup : Soup) (i : IntelligentHotelInfo) :
    Except String IntelligentHotelInfo :=
  if env.use_ai then
    match env.nlp with
    | some f =>
        match f (pyTake 3000 soup.fullText) with
        | Except.error e => Except.error e
        | Except.ok ents =>
            let t := ents.foldl nearbyStep ([], [], [])
            Except.ok { i with
              nearby_attractions := some (t.1.take 10)
              nearby_restaurants := some (t.2.1.take 10)
              nearby_shopping := some (t.2.2.take 10) }
    | none => Except.ok i
  else Except.ok i

/-- The ordered service categories of `_extract_services_ai`. -/
def service_categories : List (String × List String) :=
  [("concierge", ["concierge", "guest services", "front desk"]),
   ("laundry", ["laundry", "dry cleaning", "valet service"]),
   ("luggage", ["luggage storage", "baggage", "bell hop"]),
   ("transportation", ["shuttle", "car service", "taxi", "uber"]),
   ("meeting", ["meeting room", "conference", "event space"]),
   ("wellness", ["spa", "massage", "wellness center"])]

/-- One service category: the first keyword present appends a formatted
entry and breaks the keyword loop. -/
def serviceStep (text : String) (acc : List String) (cat : String × List String) :
    List String :=
  match cat.2.find? (fun k => strContainsSub text k) with
  | some keyword =>
      acc ++ [pyTitle keyword ++ " - " ++
              pyTake 50 (extract_context_around_keyword text keyword 60) ++ "..."]
  | none => acc

/-- `_extract_services_ai`: the accumulated entries are written to
`concierge_services` unconditionally. -/
def extract_services_ai (_env : ScraperEnv) (soup : Soup) (i : IntelligentHotelInfo) :
    Except String IntelligentHotelInfo :=
  Except.ok { i with concierge_services := some ((service_categories.foldl (serviceStep (pyLower soup.fullText)) [])) }

/-- The room-type keywords of `_extract_room_info_ai`. -/
def room_type_keywords : List String :=
  ["standard", "deluxe", "suite", "premium", "executive", "junior suite"]

/-- The room-amenity keywords of `_extract_room_info_ai`. -/
def room_amenity_keywords : List String :=
  ["air conditioning", "minibar", "coffee maker", "safe", "balcony", "view"]

/-- One room element: the first room-type keyword present appends a typed
dict; every amenity keyword present and not already in the (titled)
accumulator appends its titled form.  (The membership test compares the
lowercase keyword against titled entries, as the source does.) -/
def roomStep (acc : List Val × List String) (el : SoupElement) :
    List Val × List String :=
  let room_text := pyLower el.text
  let types := match room_type_keywords.find? (fun k => strContainsSub room_text k) with
    | some k => acc.1 ++ [Val.dict [("type", Val.str (pyTitle k)),
                                    ("description", Val.str (pyTake 150 room_text))]]
    | none => acc.1
  let amens := room_amenity_keywords.foldl
    (fun a k => if strContainsSub room_text k && !(a.contains k) then a ++ [pyTitle k] else a)
    acc.2
  (types, amens)

/-- `_extract_room_info_ai`: fold the first five room elements; both
result lists are written unconditionally. -/
def extract_room_info_ai (_env : ScraperEnv) (soup : Soup) (i : IntelligentHotelInfo) :
    Except String IntelligentHotelInfo :=
  let res := (soup.roomBlocks.take 5).foldl roomStep ([], [])
  Except.ok { i with room_types := some res.1, room_amenities := some res.2 }

/-- One strategy of `_extract_hotel_name_ai`: a candidate is accepted when
truthy and longer than three characters; with `use_ai` and a loaded spaCy
model the name is refined to the first `ORG`/`GPE` entity (an exception in
the refinement is caught by the bare `except` and the loop continues). -/
def hotelNameGo (env : ScraperEnv) : List (Option String) → String
  | [] => "Unknown Hotel"
  | c :: rest =>
      match c with
      | none => hotelNameGo env rest
      | some name =>
          if name != "" && decide (3 < pyLen name) then
            if env.use_ai then
              match env.nlp with
              | some f =>
                  match f name with
                  | Except.ok ents =>
                      match (ents.filter (fun e => e.label == "ORG" || e.label == "GPE")).head? with
                      | some e => e.text
                      | none => name
                  | Except.error _ => hotelNameGo env rest
              | none => name
            else name
          else hotelNameGo env rest

/-- `_extract_hotel_name_ai`: try the seven candidate strategies in order,
falling back to the sentinel `"Unknown Hotel"`. -/
def extract_hotel_name_ai (env : ScraperEnv) (soup : Soup) : String :=
  hotelNameGo env soup.nameCandidates

/-- The key/value dispatch of `_parse_ai_response` (the body of the
`if ':' in line` branch, with `key` and `value` the stripped halves of
`line.split(':', 1)`): write the matching field unless the value is still
the prompt placeholder. -/
def parseAiKV (key value : String) (i : IntelligentHotelInfo) : IntelligentHotelInfo :=
  if key == "HOTEL_NAME" && value != "[hotel name]" then
    { i with hotel_name := value }
  else if key == "ADDRESS" && value != "[full address]" then
    { i with address := some value }
  else if key == "PHONE" && value != "[phone number]" then
    { i with phone := some value }
  else if key == "EMAIL" && value != "[email address]" then
    { i with email := some value }
  else if key == "CHECK_IN" && value != "[check-in time]" then
    { i with checkin_time := some value }
  else if key == "CHECK_OUT" && value != "[check-out time]" then
    { i with checkout_time := some value }
  else if key == "AMENITIES" && value != "[list amenities separated by commas]" then
    { i with room_amenities := some ((pySplit value ",").map pyStrip) }
  else if key == "DINING" && value != "[restaurant/dining options]" then
    { i with restaurants := some [Val.str value] }
  else if key == "SPA_SERVICES" && value != "[spa services available]" then
    { i with spa_services := some ((pySplit value ",").map pyStrip) }
  else if key == "NEARBY" && value != "[nearby attractions]" then
    { i with nearby_attractions := some ((pySplit value ",").map (fun a => Val.str (pyStrip a))) }
  else if key == "POLICIES" && value != "[important policies]" then
    if !(optStrTruthy i.cancellation_policy) then
      { i with cancellation_policy := some value }
    else i
  else i

/-- One line of `_parse_ai_response`: strip the line, split at the first
`:` (`line.split(':', 1)`, modelled by rejoining the tail of the full
split), strip both halves, and dispatch on the key. -/
def parseAiLine (i : IntelligentHotelInfo) (line0 : String) : IntelligentHotelInfo :=
  if strContainsSub (pyStrip line0) ":" then
    parseAiKV (pyStrip ((pySplit (pyStrip line0) ":").headD ""))
      (pyStrip (joinSep ":" ((pySplit (pyStrip line0) ":").tail))) i
  else i

/-- `_parse_ai_response`: fold the line parser over
`ai_response.split('\n')`. -/
def parse_ai_response (ai_response : String) (i : IntelligentHotelInfo) :
    IntelligentHotelInfo :=
  (pySplit ai_response "\n").foldl parseAiLine i

/-- The simple phone regex of `_basic_content_extraction`. -/
def basic_phone_pattern : String := "\\b\\d\x7b3\x7d[-.\\s]?\\d\x7b3\x7d[-.\\s]?\\d\x7b4\x7d\\b"

/-- The amenity keywords of `_basic_content_extraction`. -/
def basic_amenity_keywords : List String :=
  ["pool", "wifi", "parking", "gym", "spa", "restaurant", "bar", "fitness"]

/-- `_basic_content_extraction`: guarded phone and email writes, then the
titled amenity keywords found in the lowercased text when
`room_amenities` is still falsy. -/
def basic_content_extraction (env : ScraperEnv) (soup : Soup)
    (i : IntelligentHotelInfo) : IntelligentHotelInfo :=
  let text := soup.fullText
  let i := match env.reSearch basic_phone_pattern text with
    | some m => if !(optStrTruthy i.phone) then { i with phone := some m.group0 } else i
    | none => i
  let i := match env.reSearch email_pattern text with
    | some m => if !(optStrTruthy i.email) then { i with email := some m.group0 } else i
    | none => i
  let found := (basic_amenity_keywords.filter
    (fun k => strContainsSub (pyLower text) k)).map pyTitle
  if found != [] && !(optStrListTruthy i.room_amenities) then
    { i with room_amenities := some found }
  else i

/-- `_generate_ai_insights`: no-op without `use_ai` or a text generator;
the generator runs over the prompt embedding `content[:1500]` (the oracle
returns the generated suffix after the prompt, already stripped); its
structured output is parsed, and any exception falls back to
`_basic_content_extraction`. -/
def generate_ai_insights (env : ScraperEnv) (soup : Soup)
    (i : IntelligentHotelInfo) : IntelligentHotelInfo :=
  if !env.use_ai then i
  else
    match env.textGen with
    | none => i
    | some g =>
        let content := extract_meaningful_content soup.contentBlocks
        match g (pyTake 1500 content) with
        | Except.ok ai_response => parse_ai_response ai_response i
        | Except.error _ => basic_content_extraction env soup i

/-- The seven extraction coroutines of `scrape_hotel_intelligent`, run over
the shared record; `asyncio.gather` without `return_exceptions` propagates
the first exception, which the embedding renders by short-circuiting
(the record is not returned in either case). -/
def runExtraction (env : ScraperEnv) (soup : Soup) (i : IntelligentHotelInfo) :
    Except String IntelligentHotelInfo :=
  match extract_contact_info_ai env soup i with
  | Except.error e => Except.error e
  | Except.ok i1 =>
  match extract_policies_ai env soup i1 with
  | Except.error e => Except.error e
  | Except.ok i2 =>
  match extract_amenities_ai env soup i2 with
  | Except.error e => Except.error e
  | Except.ok i3 =>
  match extract_dining_info_ai env soup i3 with
  | Except.error e => Except.error e
  | Except.ok i4 =>
  match extract_nearby_info_ai env soup i4 with
  | Except.error e => Except.error e
  | Except.ok i5 =>
  match extract_services_ai env soup i5 with
  | Except.error e => Except.error e
  | Except.ok i6 =>
  extract_room_info_ai env soup i6

/-- The weight table `field_weights` of `_calculate_confidence_score`. -/
def field_weights : String → ℚ
  | "hotel_name" => 0.1
  | "phone" => 0.08
  | "address" => 0.08
  | "checkin_time" => 0.07
  | "checkout_time" => 0.07
  | "parking_available" => 0.05
  | "wifi_info" => 0.05
  | "restaurants" => 0.1
  | "nearby_attractions" => 0.08
  | "room_types" => 0.08
  | "amenities_count" => 0.1
  | "policies_count" => 0.08
  | "services_count" => 0.06
  | _ => 0

/-- `if hotel_info.hotel_name and hotel_info.hotel_name != "Unknown Hotel"`. -/
def hotelNameTerm (i : IntelligentHotelInfo) : ℚ :=
  if i.hotel_name != "" && i.hotel_name != "Unknown Hotel" then
    field_weights "hotel_name" else 0

/-- `if hotel_info.phone`. -/
def phoneTerm (i : IntelligentHotelInfo) : ℚ :=
  if optStrTruthy i.phone then field_weights "phone" else 0

/-- `if hotel_info.address`. -/
def addressTerm (i : IntelligentHotelInfo) : ℚ :=
  if optStrTruthy i.address then field_weights "address" else 0

/-- `if hotel_info.checkin_time`. -/
def checkinTerm (i : IntelligentHotelInfo) : ℚ :=
  if optStrTruthy i.checkin_time then field_weights "checkin_time" else 0

/-- `if hotel_info.checkout_time`. -/
def checkoutTerm (i : IntelligentHotelInfo) : ℚ :=
  if optStrTruthy i.checkout_time then field_weights "checkout_time" else 0

/-- `if hotel_info.parking_available is not None` (note: `is not None`,
not truthiness — `False` also counts). -/
def parkingTerm (i : IntelligentHotelInfo) : ℚ :=
  if i.parking_available.isSome then field_weights "parking_available" else 0

/-- `if hotel_info.wifi_info`. -/
def wifiTerm (i : IntelligentHotelInfo) : ℚ :=
  if optStrTruthy i.wifi_info then field_weights "wifi_info" else 0

/-- `min(len(restaurants) / 3, 1.0)` scaling, guarded by truthiness. -/
def restaurantsTerm (i : IntelligentHotelInfo) : ℚ :=
  if optValListTruthy i.restaurants then
    field_weights "restaurants" * min (((i.restaurants.getD []).length : ℚ) / 3) 1
  else 0

/-- `min(len(nearby_attractions) / 5, 1.0)` scaling, guarded by truthiness. -/
def attractionsTerm (i : IntelligentHotelInfo) : ℚ :=
  if optValListTruthy i.nearby_attractions then
    field_weights "nearby_attractions" * min (((i.nearby_attractions.getD []).length : ℚ) / 5) 1
  else 0

/-- `min(len(room_types) / 3, 1.0)` scaling, guarded by truthiness. -/
def roomTypesTerm (i : IntelligentHotelInfo) : ℚ :=
  if optValListTruthy i.room_types then
    field_weights "room_types" * min (((i.room_types.getD []).length : ℚ) / 3) 1
  else 0

/-- `amenities_count`: how many of fitness center, pool, spa services,
business center and pet policy are truthy. -/
def amenities_count (i : IntelligentHotelInfo) : Nat :=
  (if optDictTruthy i.fitness_center then 1 else 0) +
  (if optDictTruthy i.pool then 1 else 0) +
  (if optStrListTruthy i.spa_services then 1 else 0) +
  (if optDictTruthy i.business_center then 1 else 0) +
  (if optDictTruthy i.pet_policy then 1 else 0)

/-- `field_weights['amenities_count'] * min(amenities_count / 5, 1.0)`. -/
def amenitiesTerm (i : IntelligentHotelInfo) : ℚ :=
  field_weights "amenities_count" * min ((amenities_count i : ℚ) / 5) 1

/-- `policies_count`: cancellation, deposit and age-restriction policies. -/
def policies_count (i : IntelligentHotelInfo) : Nat :=
  (if optStrTruthy i.cancellation_policy then 1 else 0) +
  (if optStrTruthy i.deposit_policy then 1 else 0) +
  (if optStrTruthy i.age_restrictions then 1 else 0)

/-- `field_weights['policies_count'] * min(policies_count / 3, 1.0)`. -/
def policiesTerm (i : IntelligentHotelInfo) : ℚ :=
  field_weights "policies_count" * min ((policies_count i : ℚ) / 3) 1

/-- `services_count = len(concierge_services) if concierge_services else 0`. -/
def services_count (i : IntelligentHotelInfo) : Nat :=
  if optStrListTruthy i.concierge_services then (i.concierge_services.getD []).length else 0

/-- `field_weights['services_count'] * min(services_count / 5, 1.0)`. -/
def servicesTerm (i : IntelligentHotelInfo) : ℚ :=
  field_weights "services_count" * min ((services_count i : ℚ) / 5) 1

/-- `_calculate_confidence_score`: the accumulated weight sum (each
conditional `score += w` rendered as an additive term that is `0` when its
condition fails, in source order), capped by `min(score, 1.0)`. -/
def calculate_confidence_score (i : IntelligentHotelInfo) : ℚ :=
  min (hotelNameTerm i + phoneTerm i + addressTerm i + checkinTerm i +
       checkoutTerm i + parkingTerm i + wifiTerm i + restaurantsTerm i +
       attractionsTerm i + roomTypesTerm i + amenitiesTerm i +
       policiesTerm i + servicesTerm i) 1

/-- The tail of `scrape_hotel_intelligent`: gather the seven extraction
tasks over the freshly constructed record, run the AI-insight step when
`use_ai`, attach the confidence score, and return; an exception inside
extraction is logged by the outer handler and re-raised
(`Except.error`). -/
def finalizeScrape (env : ScraperEnv) (soup : Soup) (info : IntelligentHotelInfo) :
    Except String IntelligentHotelInfo :=
  match runExtraction env soup info with
  | Except.error e => Except.error e
  | Except.ok r =>
      let r := if env.use_ai then generate_ai_insights env soup r else r
      Except.ok { r with confidence_score := calculate_confidence_score r }

/-- `scrape_hotel_intelligent`, continued: resolve the hotel name
(`hotel_name or await _extract_hotel_name_ai(soup)`), construct the record
(with `__post_init__`), and finalize. -/
def scrape_hotel_intelligent (env : ScraperEnv) (soup : Soup) (url : String)
    (hotelName : Option String) (now : String) :
    Except String IntelligentHotelInfo :=
  let name := match hotelName with
    | some n => if n != "" then n else extract_hotel_name_ai env soup
    | none => extract_hotel_name_ai env soup
  finalizeScrape env soup (post_init (defaultInfo name url now))

/-- A successful prefix test bounds the pattern length. -/
lemma startsWithList_len {s p : List Char} (h : startsWithList s p = true) :
    p.length ≤ s.length := by
  induction p generalizing s with
  | nil => simp
  | cons x xs ih =>
      cases s with
      | nil => simp [startsWithList] at h
      | cons c cs =>
          simp only [startsWithList, Bool.and_eq_true] at h
          simpa [Nat.succ_le_succ_iff] using ih h.2

/-- A found index leaves room for the whole pattern. -/
lemma findSubIdx_bound {p s : List Char} {i : Nat} (h : findSubIdx p s = some i) :
    i + p.length ≤ s.length := by
  induction s generalizing i with
  | nil =>
      simp only [findSubIdx] at h
      split at h
      · next hs =>
          cases h
          simpa using startsWithList_len hs
      · exact absurd h (by simp)
  | cons c cs ih =>
      simp only [findSubIdx] at h
      split at h
      · next hs =>
          cases h
          simpa using startsWithList_len hs
      · next =>
          cases hj : findSubIdx p cs with
          | none => rw [hj] at h; simp at h
          | some j =>
              rw [hj] at h
              simp only [Option.map_some'] at h
              have hij : j + 1 = i := Option.some.inj h
              have := ih hj
              simp only [List.length_cons]
              omega

/-- Substring containment agrees with a successful `find`. -/
lemma hasSubList_eq_isSome (p s : List Char) :
    hasSubList p s = (findSubIdx p s).isSome := by
  induction s with
  | nil => simp [hasSubList, findSubIdx]; split <;> simp_all
  | cons c cs ih =>
      simp only [hasSubList, findSubIdx]
      split
      · next hs => simp [hs]
      · next hs => simp [hs, ih]

/-- A non-empty keyword found in the text yields a non-empty context
window (the window always contains the keyword occurrence). -/
lemma context_ne_of_found {text keyword : String} {cs pos : Nat}
    (hk : (pyLower keyword).toList ≠ [])
    (h : findSubIdx (pyLower keyword).toList text.toList = some pos) :
    extract_context_around_keyword text keyword cs ≠ "" := by
  unfold extract_context_around_keyword
  rw [h]
  intro hcon
  have hbound := findSubIdx_bound h
  have hplen : 0 < (pyLower keyword).toList.length := List.length_pos.mpr hk
  have hlen : pyLen keyword = (pyLower keyword).toList.length := by
    simp [pyLen, pyLower]
  have : (String.mk ((text.toList.drop (pos - cs)).take
      (min (pyLen text) (pos + pyLen keyword + cs) - (pos - cs)))) = "" := hcon
  have hdata : ((text.toList.drop (pos - cs)).take
      (min (pyLen text) (pos + pyLen keyword + cs) - (pos - cs))) = [] := by
    have := congrArg String.toList this
    simpa using this
  rw [List.take_eq_nil_iff] at hdata
  rcases hdata with hz | hdrop
  · have htl : pyLen text = text.toList.length := rfl
    rw [htl] at hz
    omega
  · have := congrArg List.length hdrop
    rw [List.length_drop] at this
    simp only [List.length_nil] at this
    have htl : pyLen text = text.toList.length := rfl
    omega

/-- A missing keyword yields the empty context window. -/
lemma context_empty_of_not_found {text keyword : String} {cs : Nat}
    (h : findSubIdx (pyLower keyword).toList text.toList = none) :
    extract_context_around_keyword text keyword cs = "" := by
  unfold extract_context_around_keyword
  rw [h]

/-- A predicate preserved by each fold step is preserved by the fold. -/
lemma foldl_preserves {α β : Type} (P : α → Prop) (f : α → β → α)
    (h : ∀ a b, P a → P (f a b)) : ∀ (l : List β) (a : α), P a → P (l.foldl f a) := by
  intro l
  induction l with
  | nil => intro a ha; simpa using ha
  | cons b bs ih => intro a ha; simpa using ih (f a b) (h a b ha)

/-- A guarded weight term is nonnegative. -/
lemma guarded_nonneg (b : Bool) (w : ℚ) (hw : 0 ≤ w) : 0 ≤ if b then w else 0 := by
  cases b <;> simp [hw]

/-- A saturating scaled weight is nonnegative. -/
lemma scaled_nonneg (w n d : ℚ) (hw : 0 ≤ w) (hn : 0 ≤ n) (hd : 0 ≤ d) :
    0 ≤ w * min (n / d) 1 :=
  mul_nonneg hw (le_min (div_nonneg hn hd) zero_le_one)

/-- A saturating scaled weight never exceeds its weight. -/
lemma scaled_le (w n d : ℚ) (hw : 0 ≤ w) : w * min (n / d) 1 ≤ w := by
  calc w * min (n / d) 1 ≤ w * 1 := mul_le_mul_of_nonneg_left (min_le_right _ _) hw
  _ = w := mul_one w

/-- Every guarded presence term of the confidence sum is nonnegative. -/
lemma presence_terms_nonneg (i : IntelligentHotelInfo) :
    0 ≤ hotelNameTerm i ∧ 0 ≤ phoneTerm i ∧ 0 ≤ addressTerm i ∧
    0 ≤ checkinTerm i ∧ 0 ≤ checkoutTerm i ∧ 0 ≤ parkingTerm i ∧
    0 ≤ wifiTerm i := by
  unfold hotelNameTerm phoneTerm addressTerm checkinTerm checkoutTerm
    parkingTerm wifiTerm
  exact ⟨guarded_nonneg _ _ (by norm_num [field_weights]),
    guarded_nonneg _ _ (by norm_num [field_weights]),
    guarded_nonneg _ _ (by norm_num [field_weights]),
    guarded_nonneg _ _ (by norm_num [field_weights]),
    guarded_nonneg _ _ (by norm_num [field_weights]),
    guarded_nonneg _ _ (by norm_num [field_weights]),
    guarded_nonneg _ _ (by norm_num [field_weights])⟩

/-- The restaurants term is nonnegative. -/
lemma restaurantsTerm_nonneg (i : IntelligentHotelInfo) : 0 ≤ restaurantsTerm i := by
  unfold restaurantsTerm
  split
  · exact scaled_nonneg _ _ _ (by norm_num [field_weights]) (by positivity) (by norm_num)
  · norm_num

/-- The nearby-attractions term is nonnegative. -/
lemma attractionsTerm_nonneg (i : IntelligentHotelInfo) : 0 ≤ attractionsTerm i := by
  unfold attractionsTerm
  split
  · exact scaled_nonneg _ _ _ (by norm_num [field_weights]) (by positivity) (by norm_num)
  · norm_num

/-- The room-types term is nonnegative. -/
lemma roomTypesTerm_nonneg (i : IntelligentHotelInfo) : 0 ≤ roomTypesTerm i := by
  unfold roomTypesTerm
  split
  · exact scaled_nonneg _ _ _ (by norm_num [field_weights]) (by positivity) (by norm_num)
  · norm_num

/-- The amenities-count term is nonnegative. -/
lemma amenitiesTerm_nonneg (i : IntelligentHotelInfo) : 0 ≤ amenitiesTerm i :=
  scaled_nonneg _ _ _ (by norm_num [field_weights]) (by positivity) (by norm_num)

/-- The policies-count term is nonnegative. -/
lemma policiesTerm_nonneg (i : IntelligentHotelInfo) : 0 ≤ policiesTerm i :=
  scaled_nonneg _ _ _ (by norm_num [field_weights]) (by positivity) (by norm_num)

/-- The services-count term is nonnegative. -/
lemma servicesTerm_nonneg (i : IntelligentHotelInfo) : 0 ≤ servicesTerm i :=
  scaled_nonneg _ _ _ (by norm_num [field_weights]) (by positivity) (by norm_num)

/-- C2: for every Record the confidence score computed by
`_calculate_confidence_score` lies in `[0, 1]`; and for a Record in which
every group is exhausted — every scalar field the scorer reads absent,
every list field the scorer reads empty (the `__post_init__` default), and
`hotel_name` equal to the sentinel `"Unknown Hotel"` — the score is
exactly `0`: in particular the `"Unknown Hotel"` sentinel contributes `0`
to the `hotel_name` weight. -/
theorem c2_confidence_bounds_and_exhausted_zero :
    (∀ i : IntelligentHotelInfo,
      0 ≤ calculate_confidence_score i ∧ calculate_confidence_score i ≤ 1) ∧
    (∀ i : IntelligentHotelInfo,
      i.hotel_name = "Unknown Hotel" → i.phone = none → i.address = none →
      i.checkin_time = none → i.checkout_time = none →
      i.parking_available = none → i.wifi_info = none →
      i.restaurants = some [] → i.nearby_attractions = some [] →
      i.room_types = some [] → i.fitness_center = none → i.pool = none →
      i.spa_services = some [] → i.business_center = none →
      i.pet_policy = none → i.cancellation_policy = none →
      i.deposit_policy = none → i.age_restrictions = none →
      i.concierge_services = some [] →
      calculate_confidence_score i = 0) := by
  constructor
  · intro i
    constructor
    · unfold calculate_confidence_score
      refine le_min ?_ zero_le_one
      obtain ⟨a1, a2, a3, a4, a5, a6, a7⟩ := presence_terms_nonneg i
      have b1 := restaurantsTerm_nonneg i
      have b2 := attractionsTerm_nonneg i
      have b3 := roomTypesTerm_nonneg i
      have b4 := amenitiesTerm_nonneg i
      have b5 := policiesTerm_nonneg i
      have b6 := servicesTerm_nonneg i
      linarith
    · exact min_le_right _ _
  · intro i h1 h2 h3 h4 h5 h6 h7 h8 h9 h10 h11 h12 h13 h14 h15 h16 h17 h18 h19
    unfold calculate_confidence_score hotelNameTerm phoneTerm addressTerm
      checkinTerm checkoutTerm parkingTerm wifiTerm restaurantsTerm
      attractionsTerm roomTypesTerm amenitiesTerm policiesTerm servicesTerm
      amenities_count policies_count services_count
    rw [h1, h2, h3, h4, h5, h6, h7, h8, h9, h10, h11, h12, h13, h14, h15,
      h16, h17, h18, h19]
    norm_num [optStrTruthy, optValListTruthy, optStrListTruthy, optDictTruthy]

/-- Witness for C2: the freshly constructed record for an unidentified
hotel is all-exhausted and scores exactly `0` (and the bounds hold). -/
theorem c2_witness :
    calculate_confidence_score (post_init (defaultInfo "Unknown Hotel" "https://x.example" "2026-10-12")) = 0 ∧
    0 ≤ calculate_confidence_score (post_init (defaultInfo "Unknown Hotel" "https://x.example" "2026-10-12")) := by
  refine ⟨?_, (c2_confidence_bounds_and_exhausted_zero.1 _).1⟩
  exact c2_confidence_bounds_and_exhausted_zero.2 _ rfl rfl rfl rfl rfl rfl
    rfl rfl rfl rfl rfl rfl rfl rfl rfl rfl rfl rfl rfl

/-- C9: `_calculate_confidence_score` is a pure, deterministic function of
the finished Record: its value depends only on the record's field values
(indeed, only on the nineteen fields the scorer reads), never on external
state.  Two Records with identical field values — in particular, two that
agree on these nineteen fields — receive identical scores. -/
theorem c9_score_deterministic (i1 i2 : IntelligentHotelInfo)
    (h1 : i1.hotel_name = i2.hotel_name) (h2 : i1.phone = i2.phone)
    (h3 : i1.address = i2.address) (h4 : i1.checkin_time = i2.checkin_time)
    (h5 : i1.checkout_time = i2.checkout_time)
    (h6 : i1.parking_available = i2.parking_available)
    (h7 : i1.wifi_info = i2.wifi_info) (h8 : i1.restaurants = i2.restaurants)
    (h9 : i1.nearby_attractions = i2.nearby_attractions)
    (h10 : i1.room_types = i2.room_types)
    (h11 : i1.fitness_center = i2.fitness_center) (h12 : i1.pool = i2.pool)
    (h13 : i1.spa_services = i2.spa_services)
    (h14 : i1.business_center = i2.business_center)
    (h15 : i1.pet_policy = i2.pet_policy)
    (h16 : i1.cancellation_policy = i2.cancellation_policy)
    (h17 : i1.deposit_policy = i2.deposit_policy)
    (h18 : i1.age_restrictions = i2.age_restrictions)
    (h19 : i1.concierge_services = i2.concierge_services) :
    calculate_confidence_score i1 = calculate_confidence_score i2 := by
  unfold calculate_confidence_score hotelNameTerm phoneTerm addressTerm
    checkinTerm checkoutTerm parkingTerm wifiTerm restaurantsTerm
    attractionsTerm roomTypesTerm amenitiesTerm policiesTerm servicesTerm
    amenities_count policies_count services_count
  rw [h1, h2, h3, h4, h5, h6, h7, h8, h9, h10, h11, h12, h13, h14, h15,
    h16, h17, h18, h19]

/-- Witness for C9: two concrete records that differ in fields the scorer
does not read (`email`, `city`, `scraped_at`) receive the same score. -/
theorem c9_witness :
    calculate_confidence_score
      { post_init (defaultInfo "Grand Hotel" "https://x.example" "2026-10-12") with
        phone := some "555-123-4567", email := some "a@b.example", city := some "Boston" } =
    calculate_confidence_score
      { post_init (defaultInfo "Grand Hotel" "https://x.example" "2026-01-01") with
        phone := some "555-123-4567" } :=
  c9_score_deterministic _ _ rfl rfl rfl rfl rfl rfl rfl rfl rfl rfl rfl
    rfl rfl rfl rfl rfl rfl rfl rfl

/-- The all-exhausted base record shared by the scaling theorems: a fresh
record for an unidentified hotel. -/
def exhaustedBase : IntelligentHotelInfo :=
  post_init (defaultInfo "Unknown Hotel" "https://x.example" "2026-10-12")

/-- A record with exactly four of the five amenity signals populated
(fitness center, pool, spa services, pet policy; no business center). -/
def fourAmenitiesRecord : IntelligentHotelInfo :=
  { exhaustedBase with
    fitness_center := some [("available", Val.bool true)]
    pool := some [("available", Val.bool true)]
    spa_services := some ["massage"]
    pet_policy := some [("allowed", Val.bool true)] }

/-- C7: the scorer scales each list-valued signal by
`min(count / target, 1.0)` with saturation targets 3 (restaurants),
5 (nearby attractions) and 3 (room types) — shown on records where that
signal is the only populated one, so the whole score equals the scaled
term — and the amenities-count signal over fitness/pool/spa/business
center/pet policy is scaled by `min(count / 5, 1.0)`, so exactly four of
the five populated yields exactly `weight * 0.8` (and a record with only
those four amenities scores `0.1 * 0.8`). -/
theorem c7_saturating_scaling :
    (∀ l : List Val, l ≠ [] →
      calculate_confidence_score { exhaustedBase with restaurants := some l } =
        0.1 * min ((l.length : ℚ) / 3) 1) ∧
    (∀ l : List Val, l ≠ [] →
      calculate_confidence_score { exhaustedBase with nearby_attractions := some l } =
        0.08 * min ((l.length : ℚ) / 5) 1) ∧
    (∀ l : List Val, l ≠ [] →
      calculate_confidence_score { exhaustedBase with room_types := some l } =
        0.08 * min ((l.length : ℚ) / 3) 1) ∧
    (∀ i : IntelligentHotelInfo, amenities_count i = 4 →
      amenitiesTerm i = 0.1 * (4 / 5 : ℚ)) ∧
    calculate_confidence_score fourAmenitiesRecord = 0.1 * (0.8 : ℚ) := by
  refine ⟨?_, ?_, ?_, ?_, ?_⟩
  · intro l hl
    obtain ⟨x, xs, rfl⟩ := List.exists_cons_of_ne_nil hl
    simp [calculate_confidence_score, hotelNameTerm, phoneTerm, addressTerm,
      checkinTerm, checkoutTerm, parkingTerm, wifiTerm, restaurantsTerm,
      attractionsTerm, roomTypesTerm, amenitiesTerm, policiesTerm, servicesTerm,
      amenities_count, policies_count, services_count, exhaustedBase, post_init,
      defaultInfo, optStrTruthy, optValListTruthy, optStrListTruthy,
      optDictTruthy, field_weights]
    have hm : ((xs.length : ℚ) + 1) / 3 ⊓ 1 ≤ 1 := inf_le_right
    have hm0 : (0 : ℚ) ≤ ((xs.length : ℚ) + 1) / 3 ⊓ 1 :=
      le_inf (by positivity) (by norm_num)
    nlinarith
  · intro l hl
    obtain ⟨x, xs, rfl⟩ := List.exists_cons_of_ne_nil hl
    simp [calculate_confidence_score, hotelNameTerm, phoneTerm, addressTerm,
      checkinTerm, checkoutTerm, parkingTerm, wifiTerm, restaurantsTerm,
      attractionsTerm, roomTypesTerm, amenitiesTerm, policiesTerm, servicesTerm,
      amenities_count, policies_count, services_count, exhaustedBase, post_init,
      defaultInfo, optStrTruthy, optValListTruthy, optStrListTruthy,
      optDictTruthy, field_weights]
    have hm : ((xs.length : ℚ) + 1) / 5 ⊓ 1 ≤ 1 := inf_le_right
    have hm0 : (0 : ℚ) ≤ ((xs.length : ℚ) + 1) / 5 ⊓ 1 :=
      le_inf (by positivity) (by norm_num)
    nlinarith
  · intro l hl
    obtain ⟨x, xs, rfl⟩ := List.exists_cons_of_ne_nil hl
    simp [calculate_confidence_score, hotelNameTerm, phoneTerm, addressTerm,
      checkinTerm, checkoutTerm, parkingTerm, wifiTerm, restaurantsTerm,
      attractionsTerm, roomTypesTerm, amenitiesTerm, policiesTerm, servicesTerm,
      amenities_count, policies_count, services_count, exhaustedBase, post_init,
      defaultInfo, optStrTruthy, optValListTruthy, optStrListTruthy,
      optDictTruthy, field_weights]
    have hm : ((xs.length : ℚ) + 1) / 3 ⊓ 1 ≤ 1 := inf_le_right
    have hm0 : (0 : ℚ) ≤ ((xs.length : ℚ) + 1) / 3 ⊓ 1 :=
      le_inf (by positivity) (by norm_num)
    nlinarith
  · intro i hc
    unfold amenitiesTerm
    rw [hc]
    norm_num [field_weights]
  · norm_num [calculate_confidence_score, hotelNameTerm, phoneTerm, addressTerm,
      checkinTerm, checkoutTerm, parkingTerm, wifiTerm, restaurantsTerm,
      attractionsTerm, roomTypesTerm, amenitiesTerm, policiesTerm, servicesTerm,
      amenities_count, policies_count, services_count, fourAmenitiesRecord,
      exhaustedBase, post_init, defaultInfo, optStrTruthy, optValListTruthy,
      optStrListTruthy, optDictTruthy, field_weights]

/-- Witness for C7: one restaurant yields score `0.1 * (1/3)`, and the
four-amenity record's amenity signal is exactly `0.1 * (4/5)`. -/
theorem c7_witness :
    calculate_confidence_score { exhaustedBase with restaurants := some [Val.str "Bistro"] } =
      0.1 * min ((1 : ℚ) / 3) 1 ∧
    amenitiesTerm fourAmenitiesRecord = 0.1 * (4 / 5 : ℚ) := by
  constructor
  · have h := c7_saturating_scaling.1 [Val.str "Bistro"] (List.cons_ne_nil _ _)
    simpa using h
  · exact c7_saturating_scaling.2.2.2.1 fourAmenitiesRecord rfl

/-- Counterexample for C3: a page whose only text block is `"short"` (so
no block qualifies as meaningful) makes `_extract_meaningful_content`
return the empty string — not the raw page text truncated to the
character budget, which here would be the non-empty `"short"` itself. -/
theorem c3_counterexample :
    extract_meaningful_content ["short"] = "" ∧
    extract_meaningful_content ["short"] ≠ pyTake 3000 "short" := by
  constructor
  · decide
  · decide

/-- C3 (amended): when no text block qualifies as meaningful, content
normalization returns the empty string (there is no raw-text fallback and
no truncation step in `_extract_meaningful_content`); being a total
function, it never raises. -/
theorem c3_amended (blocks : List String)
    (h : blocks.filter isMeaningfulBlock = []) :
    extract_meaningful_content blocks = "" := by
  unfold extract_meaningful_content
  rw [h]
  rfl

/-- Witness for C3 (amended): the single-short-block page normalizes to
the empty string. -/
theorem c3_witness : extract_meaningful_content ["short"] = "" :=
  c3_amended ["short"] (by decide)

/-- The cost/type classification of the parking analysis never touches
`parking_available`. -/
lemma parkingCostType_parking (c : String) (i : IntelligentHotelInfo) :
    (parkingCostType c i).parking_available = i.parking_available := by
  unfold parkingCostType
  split
  · rfl
  · split
    · rfl
    · split <;> rfl

/-- The check-in/check-out time loop never touches `parking_available`. -/
lemma applyTimePatterns_parking (re : String → String → Option ReMatch)
    (text : String) (i : IntelligentHotelInfo) :
    (applyTimePatterns re text i).parking_available = i.parking_available := by
  simp only [applyTimePatterns]
  cases h1 : List.findSome? (fun p => re p text) checkin_patterns <;>
    cases h2 : List.findSome? (fun p => re p text) checkout_patterns <;>
    rfl

/-- The parking analysis sets `parking_available` to `True` exactly when
the context window around `"parking"` is non-empty, and leaves it
untouched otherwise. -/
lemma applyParking_parking (re : String → String → Option ReMatch)
    (text : String) (i : IntelligentHotelInfo) :
    (applyParking re text i).parking_available =
      (if extract_context_around_keyword text "parking" 100 != "" then some true
       else i.parking_available) := by
  simp only [applyParking]
  by_cases hc : (extract_context_around_keyword text "parking" 100 != "") = true
  · simp only [if_pos hc]
    cases hm : re parking_cost_pattern (extract_context_around_keyword text "parking" 100) <;>
      simp [parkingCostType_parking]
  · simp only [Bool.not_eq_true] at hc
    simp only [hc, if_false, Bool.false_eq_true]

/-- The context window around `"parking"` is non-empty exactly when the
keyword occurs in the text. -/
lemma parking_context_ne_iff (text : String) :
    (extract_context_around_keyword text "parking" 100 ≠ "") ↔
      strContainsSub text "parking" = true := by
  have hpl : pyLower "parking" = "parking" := by decide
  constructor
  · intro h
    cases hf : findSubIdx (pyLower "parking").toList text.toList with
    | none => exact absurd (context_empty_of_not_found hf) h
    | some pos =>
        unfold strContainsSub
        rw [hasSubList_eq_isSome, ← hpl, hf]
        rfl
  · intro h
    unfold strContainsSub at h
    rw [hasSubList_eq_isSome] at h
    cases hf : findSubIdx (pyLower "parking").toList text.toList with
    | none => rw [hpl] at hf; rw [hf] at h; simp at h
    | some pos => exact context_ne_of_found (by rw [hpl]; decide) hf

/-- The policies pattern fallback writes `parking_available` exactly as
the parking analysis does. -/
lemma fallback_parking (env : ScraperEnv) (soup : Soup) (i : IntelligentHotelInfo) :
    (extract_policies_fallback env soup i).parking_available =
      (if extract_context_around_keyword (pyLower soup.fullText) "parking" 100 != ""
       then some true else i.parking_available) := by
  simp only [extract_policies_fallback]
  rw [applyParking_parking, applyTimePatterns_parking]

/-- C10: the pattern-based policy extractor only ever sets
`parking_available` to `True` — exactly when the keyword `"parking"`
occurs anywhere in the lowercased page text — and otherwise leaves it
untouched (`None` on a fresh record); it never sets `False`.
Consequently the scorer's "parking_available is set" signal fires for a
pattern-extracted record exactly when the keyword is present. -/
theorem c10_parking_keyword_signal :
    (∀ (env : ScraperEnv) (soup : Soup) (i : IntelligentHotelInfo),
      (extract_policies_fallback env soup i).parking_available = some true ∨
      (extract_policies_fallback env soup i).parking_available = i.parking_available) ∧
    (∀ (env : ScraperEnv) (soup : Soup) (i : IntelligentHotelInfo),
      strContainsSub (pyLower soup.fullText) "parking" = true →
      (extract_policies_fallback env soup i).parking_available = some true) ∧
    (∀ (env : ScraperEnv) (soup : Soup) (i : IntelligentHotelInfo),
      strContainsSub (pyLower soup.fullText) "parking" = false →
      (extract_policies_fallback env soup i).parking_available = i.parking_available) ∧
    (∀ (env : ScraperEnv) (soup : Soup),
      parkingTerm (extract_policies_fallback env soup exhaustedBase) =
        (if strContainsSub (pyLower soup.fullText) "parking" then
          field_weights "parking_available" else 0)) := by
  have hpos : ∀ (env : ScraperEnv) (soup : Soup) (i : IntelligentHotelInfo),
      strContainsSub (pyLower soup.fullText) "parking" = true →
      (extract_policies_fallback env soup i).parking_available = some true := by
    intro env soup i h
    rw [fallback_parking]
    have hne : extract_context_around_keyword (pyLower soup.fullText) "parking" 100 ≠ "" :=
      (parking_context_ne_iff _).mpr h
    simp [hne]
  have hneg : ∀ (env : ScraperEnv) (soup : Soup) (i : IntelligentHotelInfo),
      strContainsSub (pyLower soup.fullText) "parking" = false →
      (extract_policies_fallback env soup i).parking_available = i.parking_available := by
    intro env soup i h
    rw [fallback_parking]
    have heq : extract_context_around_keyword (pyLower soup.fullText) "parking" 100 = "" := by
      by_contra hne
      rw [(parking_context_ne_iff _).mp hne] at h
      exact absurd h (by simp)
    simp [heq]
  refine ⟨?_, hpos, hneg, ?_⟩
  · intro env soup i
    cases hb : strContainsSub (pyLower soup.fullText) "parking" with
    | true => exact Or.inl (hpos env soup i hb)
    | false => exact Or.inr (hneg env soup i hb)
  · intro env soup
    cases hb : strContainsSub (pyLower soup.fullText) "parking" with
    | true =>
        unfold parkingTerm
        rw [hpos env soup exhaustedBase hb]
        rfl
    | false =>
        unfold parkingTerm
        rw [hneg env soup exhaustedBase hb]
        rfl

/-- The pattern-only configuration: no OpenAI, no local AI, no matches
from the regex oracle. -/
def patternOnlyEnv : ScraperEnv :=
  { use_openai := false, use_ai := false, nlp := none,
    jsonLoads := fun _ => none, reSearch := fun _ _ => none,
    openaiResponses := fun _ _ => none, textGen := none }

/-- A page mentioning parking. -/
def parkingSoup : Soup :=
  { fullText := "Free parking on site", contentBlocks := [],
    nameCandidates := [], restaurantBlocks := [], roomBlocks := [] }

/-- A page not mentioning parking. -/
def noParkingSoup : Soup :=
  { fullText := "A quiet inn by the sea", contentBlocks := [],
    nameCandidates := [], restaurantBlocks := [], roomBlocks := [] }

/-- Witness for C10: with the keyword present the flag becomes `True`;
without it the fresh record's flag stays `None`. -/
theorem c10_witness :
    (extract_policies_fallback patternOnlyEnv parkingSoup exhaustedBase).parking_available =
      some true ∧
    (extract_policies_fallback patternOnlyEnv noParkingSoup exhaustedBase).parking_available =
      none := by
  constructor
  · exact c10_parking_keyword_signal.2.1 patternOnlyEnv parkingSoup exhaustedBase (by decide)
  · exact (c10_parking_keyword_signal.2.2.1 patternOnlyEnv noParkingSoup exhaustedBase
      (by decide)).trans rfl

/-- C5: when the remote LLM strategy's response is non-JSON or malformed —
including responses wrapped in code fences that still fail to parse, since
`json.loads` runs on the fence-stripped text — `_extract_with_openai`
returns the unusable empty dict rather than raising; the policies pipeline
then falls back to its pattern strategy; and the contact group's outcome
does not depend on the policies response at all (changing the response
oracle at `"policies"` while keeping `"hotel_info"` fixed leaves the
contact extraction unchanged). -/
theorem c5_parse_failure_falls_back :
    (∀ (env : ScraperEnv) (content ty resp : String),
      env.openaiResponses ty (pyTake 3000 content) = some resp →
      env.jsonLoads (stripCodeFences (pyStrip resp)) = none →
      extract_with_openai env content ty = []) ∧
    (∀ (env : ScraperEnv) (soup : Soup) (i : IntelligentHotelInfo),
      env.use_openai = true →
      extract_with_openai env (extract_meaningful_content soup.contentBlocks) "policies" = [] →
      extract_policies_ai env soup i = Except.ok (extract_policies_fallback env soup i)) ∧
    (∀ (env : ScraperEnv) (g : String → String → Option String)
        (soup : Soup) (i : IntelligentHotelInfo),
      (∀ c, g "hotel_info" c = env.openaiResponses "hotel_info" c) →
      extract_contact_info_ai { env with openaiResponses := g } soup i =
        extract_contact_info_ai env soup i) := by
  refine ⟨?_, ?_, ?_⟩
  · intro env content ty resp hr hj
    unfold extract_with_openai
    split
    · rfl
    · split
      · rfl
      · rw [hr]
        simp [hj]
  · intro env soup i hu hd
    unfold extract_policies_ai
    rw [hu]
    simp [hd]
  · intro env g soup i h
    dsimp only [extract_contact_info_ai, extract_with_openai, contactFallback]
    simp only [h]

/-- A configuration whose remote strategy answers the policies prompt with
non-JSON text and raises on every other prompt. -/
def malformedPoliciesEnv : ScraperEnv :=
  { use_openai := true, use_ai := false, nlp := none,
    jsonLoads := fun _ => none,
    reSearch := fun _ _ => none,
    openaiResponses := fun ty _ => if ty == "policies" then some "not json at all" else none,
    textGen := none }

/-- Witness for C5: with the malformed policies response, the remote
strategy returns the empty dict, the policies pipeline equals its pattern
fallback, and swapping in a different policies response leaves the contact
extraction unchanged. -/
theorem c5_witness :
    extract_with_openai malformedPoliciesEnv "" "policies" = [] ∧
    extract_policies_ai malformedPoliciesEnv noParkingSoup exhaustedBase =
      Except.ok (extract_policies_fallback malformedPoliciesEnv noParkingSoup exhaustedBase) ∧
    extract_contact_info_ai
        { malformedPoliciesEnv with
          openaiResponses := fun ty _ => if ty == "policies" then some "other garbage" else none }
        noParkingSoup exhaustedBase =
      extract_contact_info_ai malformedPoliciesEnv noParkingSoup exhaustedBase := by
  refine ⟨?_, ?_, ?_⟩
  · exact c5_parse_failure_falls_back.1 malformedPoliciesEnv "" "policies"
      "not json at all" rfl rfl
  · exact c5_parse_failure_falls_back.2.1 malformedPoliciesEnv noParkingSoup
      exhaustedBase rfl
      (c5_parse_failure_falls_back.1 malformedPoliciesEnv _ "policies"
        "not json at all" rfl rfl)
  · exact c5_parse_failure_falls_back.2.2 malformedPoliciesEnv _ noParkingSoup
      exhaustedBase (fun c => rfl)

/-- A truthy (non-empty) parsed dict makes the contact pipeline return the
OpenAI update and skip the fallback entirely. -/
lemma contact_remote_usable (env : ScraperEnv) (soup : Soup)
    (i : IntelligentHotelInfo) (d : PyDict) (hu : env.use_openai = true)
    (hd : extract_with_openai env (extract_meaningful_content soup.contentBlocks)
      "hotel_info" = d)
    (hne : d ≠ []) :
    extract_contact_info_ai env soup i = Except.ok (applyContactOpenai d i) := by
  unfold extract_contact_info_ai
  rw [hu]
  dsimp only
  rw [hd]
  simp [hne]

/-- A truthy lookup is impossible in a dict whose values are all empty. -/
lemma dictGetTruthy_all_empty (d : PyDict) (k : String) (h : ∀ kv ∈ d, kv.2 = "") :
    dictGetTruthy d k = none := by
  unfold dictGetTruthy
  suffices hs : ∀ v, pyDictGet d k = some v → v = "" by
    cases hp : pyDictGet d k with
    | none => rfl
    | some v => rw [hs v hp]; rfl
  intro v hv
  induction d with
  | nil => simp [pyDictGet] at hv
  | cons kv rest ih =>
      simp only [pyDictGet] at hv
      split at hv
      · have hveq : kv.2 = v := Option.some.inj hv
        rw [← hveq]
        exact h kv (by simp)
      · exact ih (fun x hx => h x (List.mem_cons_of_mem _ hx)) hv

/-- The contact OpenAI update writes nothing when every value is empty. -/
lemma applyContactOpenai_all_empty (d : PyDict) (i : IntelligentHotelInfo)
    (h : ∀ kv ∈ d, kv.2 = "") : applyContactOpenai d i = i := by
  unfold applyContactOpenai
  rw [dictGetTruthy_all_empty d "phone" h, dictGetTruthy_all_empty d "email" h,
    dictGetTruthy_all_empty d "address" h, dictGetTruthy_all_empty d "city" h,
    dictGetTruthy_all_empty d "state" h, dictGetTruthy_all_empty d "zip_code" h,
    dictGetTruthy_all_empty d "hotel_name" h]

/-- A configuration whose remote strategy answers the contact prompt with
a JSON object carrying a single empty-valued field, while the page itself
contains a phone number the pattern strategy would find. -/
def emptyValuesEnv : ScraperEnv :=
  { use_openai := true, use_ai := false, nlp := none,
    jsonLoads := fun s => if s == "resp" then some [("phone", "")] else none,
    reSearch := fun p t =>
      if p == phone_patterns.headD "" && t == "Call 555-123-4567 today" then
        some { group0 := "555-123-4567" } else none,
    openaiResponses := fun ty _ => if ty == "hotel_info" then some "resp" else none,
    textGen := none }

/-- A page containing a pattern-findable phone number. -/
def phoneSoup : Soup :=
  { fullText := "Call 555-123-4567 today", contentBlocks := [],
    nameCandidates := [], restaurantBlocks := [], roomBlocks := [] }

/-- Counterexample for C4: the remote strategy returns the non-empty
mapping `{"phone": ""}` whose only value is empty, yet the contact
pipeline treats it as usable — it returns the record unchanged (`phone`
still absent), skipping the fallback that would have extracted
`"555-123-4567"` from the same page.  Under the claim, this result is not
usable and the fallback must run. -/
theorem c4_counterexample :
    extract_with_openai emptyValuesEnv
        (extract_meaningful_content phoneSoup.contentBlocks) "hotel_info" =
      [("phone", "")] ∧
    extract_contact_info_ai emptyValuesEnv phoneSoup exhaustedBase =
      Except.ok exhaustedBase ∧
    contactFallback emptyValuesEnv phoneSoup exhaustedBase =
      Except.ok { exhaustedBase with phone := some "555-123-4567" } := by
  refine ⟨?_, ?_, ?_⟩ <;> rfl

/-- C4 (amended): the pipeline classifies a remote result as usable iff
the parsed mapping is non-empty (dict truthiness), not iff some field is
non-empty: any non-empty mapping short-circuits the group
(`extract_contact_info_ai` returns the OpenAI update and never runs the
fallback), and when all its values are empty nothing is written at all —
the record comes back unchanged instead of falling back. -/
theorem c4_amended (env : ScraperEnv) (soup : Soup) (i : IntelligentHotelInfo)
    (d : PyDict) (hu : env.use_openai = true)
    (hd : extract_with_openai env (extract_meaningful_content soup.contentBlocks)
      "hotel_info" = d)
    (hne : d ≠ []) :
    extract_contact_info_ai env soup i = Except.ok (applyContactOpenai d i) ∧
    ((∀ kv ∈ d, kv.2 = "") → extract_contact_info_ai env soup i = Except.ok i) := by
  have h1 := contact_remote_usable env soup i d hu hd hne
  exact ⟨h1, fun hall => by rw [h1, applyContactOpenai_all_empty d i hall]⟩

/-- Witness for C4 (amended): with the `{"phone": ""}` response the
contact pipeline returns the record unchanged. -/
theorem c4_witness :
    extract_contact_info_ai emptyValuesEnv phoneSoup exhaustedBase =
      Except.ok exhaustedBase :=
  (c4_amended emptyValuesEnv phoneSoup exhaustedBase [("phone", "")] rfl rfl
    (by decide)).2 (by decide)

/-- A truthy remote phone survives every later field write of the contact
OpenAI update. -/
lemma applyContactOpenai_phone (d : PyDict) (i : IntelligentHotelInfo) (p : String)
    (hp : dictGetTruthy d "phone" = some p) :
    (applyContactOpenai d i).phone = some p := by
  unfold applyContactOpenai
  rw [hp]
  cases dictGetTruthy d "email" <;> cases dictGetTruthy d "address" <;>
    cases dictGetTruthy d "city" <;> cases dictGetTruthy d "state" <;>
    cases dictGetTruthy d "zip_code" <;> cases dictGetTruthy d "hotel_name" <;> rfl

/-- The NER loop of the contact fallback never writes `phone`. -/
lemma contactEntStep_phone (i : IntelligentHotelInfo) (e : Ent) :
    (contactEntStep i e).phone = i.phone := by
  unfold contactEntStep
  split
  · rfl
  · split <;> rfl

/-- The phone-pattern loop never writes `email`. -/
lemma applyPhonePatterns_email (re : String → String → Option ReMatch)
    (text : String) (i : IntelligentHotelInfo) :
    (applyPhonePatterns re text i).email = i.email := by
  unfold applyPhonePatterns
  cases List.findSome? (fun p => re p text) phone_patterns <;> rfl

/-- A configuration where the remote contact call raises (unusable), the
NER model finds a location entity, and the pattern oracle finds the page's
phone number. -/
def nlpAddressEnv : ScraperEnv :=
  { use_openai := true, use_ai := true,
    nlp := some (fun _ => Except.ok [{ label := "GPE", text := "Boston" }]),
    jsonLoads := fun _ => none,
    reSearch := fun p t =>
      if p == phone_patterns.headD "" && t == "Call 555-123-4567 today" then
        some { group0 := "555-123-4567" } else none,
    openaiResponses := fun _ _ => none,
    textGen := none }

/-- Counterexample for C6: in the contact group the LocalNLP pass produces
a usable result (it writes `address := "Boston"`), yet the Pattern
regexes still run afterwards and write `phone := "555-123-4567"` into the
same record — a later strategy runs (and its values are written) after an
earlier strategy produced a usable result, contradicting
"no further strategies run for this group". -/
theorem c6_counterexample :
    Except.map (fun r => (r.address, r.phone))
        (extract_contact_info_ai nlpAddressEnv phoneSoup exhaustedBase) =
      Except.ok (some "Boston", some "555-123-4567") := by
  rfl

/-- C6 (amended): first-usable-wins holds at the Remote boundary — a
usable (non-empty mapping) Remote result short-circuits the contact group,
so a truthy Remote phone is final and the Pattern phone is never written.
When Remote is unusable, however, LocalNLP and Pattern run as one combined
fallback (Pattern executes even after LocalNLP populated a field), though
Pattern never overwrites a field LocalNLP populated: the email regex write
is emptiness-guarded, and the NER loop never writes `phone`, so the two
passes write disjoint values. -/
theorem c6_amended :
    (∀ (env : ScraperEnv) (soup : Soup) (i : IntelligentHotelInfo)
        (d : PyDict) (p : String),
      env.use_openai = true →
      extract_with_openai env (extract_meaningful_content soup.contentBlocks)
        "hotel_info" = d →
      d ≠ [] → dictGetTruthy d "phone" = some p →
      Except.map (fun r => r.phone) (extract_contact_info_ai env soup i) =
        Except.ok (some p)) ∧
    (∀ (re : String → String → Option ReMatch) (text : String)
        (i : IntelligentHotelInfo),
      optStrTruthy i.email = true →
      (applyEmailPattern re text (applyPhonePatterns re text i)).email = i.email) ∧
    (∀ (ents : List Ent) (i : IntelligentHotelInfo),
      (ents.foldl contactEntStep i).phone = i.phone) := by
  refine ⟨?_, ?_, ?_⟩
  · intro env soup i d p hu hd hne hp
    rw [contact_remote_usable env soup i d hu hd hne]
    dsimp only [Except.map]
    rw [applyContactOpenai_phone d i p hp]
  · intro re text i he
    unfold applyEmailPattern
    cases hm : re email_pattern text with
    | none => exact applyPhonePatterns_email re text i
    | some m =>
        have hx := applyPhonePatterns_email re text i
        rw [hx, he]
        simpa using hx
  · intro ents i
    exact foldl_preserves (fun r => r.phone = i.phone) contactEntStep
      (fun a b ha => (contactEntStep_phone a b).trans ha) ents i rfl

/-- A configuration whose remote strategy returns a usable phone number
different from the one the pattern oracle would find on the page. -/
def remotePhoneEnv : ScraperEnv :=
  { use_openai := true, use_ai := false, nlp := none,
    jsonLoads := fun s => if s == "rp" then some [("phone", "555-000-1111")] else none,
    reSearch := fun p t =>
      if p == phone_patterns.headD "" && t == "Call 555-123-4567 today" then
        some { group0 := "555-123-4567" } else none,
    openaiResponses := fun ty _ => if ty == "hotel_info" then some "rp" else none,
    textGen := none }

/-- Witness for C6 (amended): the Remote phone `555-000-1111` wins over
the Pattern-findable `555-123-4567` for the contact group. -/
theorem c6_witness :
    Except.map (fun r => r.phone)
        (extract_contact_info_ai remotePhoneEnv phoneSoup exhaustedBase) =
      Except.ok (some "555-000-1111") :=
  c6_amended.1 remotePhoneEnv phoneSoup exhaustedBase [("phone", "555-000-1111")]
    "555-000-1111" rfl rfl (by decide) rfl

/-- A configuration in which the contact group's NER call raises while
every other group's extractor runs fine (no AI models beyond the broken
one, no remote calls needed by the others). -/
def envBoom : ScraperEnv :=
  { use_openai := false, use_ai := true,
    nlp := some (fun _ => Except.error "nlp failure"),
    jsonLoads := fun _ => none, reSearch := fun _ _ => none,
    openaiResponses := fun _ _ => none, textGen := none }

/-- Counterexample for C1: when the contact group's extractor raises an
unexpected exception, `scrape_hotel_intelligent` does not convert it to an
Exhausted group and return a finalized Record — `asyncio.gather` (without
`return_exceptions`) propagates it and the orchestrator's handler logs and
re-raises: the whole scrape fails with the exception and no Record is
returned. -/
theorem c1_counterexample :
    scrape_hotel_intelligent envBoom noParkingSoup "https://x.example"
      (some "Grand Hotel") "2026-10-12" = Except.error "nlp failure" := by
  rfl

/-- C1 (amended): an unexpected exception inside a single field group's
extractor is NOT caught at the orchestrator boundary: it propagates
through the task gather, the orchestrator's outer handler logs it and
re-raises, and no Record is returned for the page (shown here for an
exception raised by the contact group's NER call, for any page, URL,
supplied name, and timestamp). -/
theorem c1_amended (env : ScraperEnv) (soup : Soup) (url : String)
    (hotelName : Option String) (now : String)
    (f : String → Except String (List Ent)) (e : String)
    (hu : env.use_openai = false) (ha : env.use_ai = true)
    (hn : env.nlp = some f)
    (hf : f (pyTake 2000 soup.fullText) = Except.error e) :
    scrape_hotel_intelligent env soup url hotelName now = Except.error e := by
  have hc : ∀ i : IntelligentHotelInfo,
      extract_contact_info_ai env soup i = Except.error e := by
    intro i
    unfold extract_contact_info_ai contactFallback
    rw [hu]
    dsimp only
    rw [ha, hn]
    dsimp only
    rw [hf]
    rfl
  unfold scrape_hotel_intelligent finalizeScrape runExtraction
  dsimp only
  rw [hc]

/-- Witness for C1 (amended): the concrete broken-NER configuration makes
the whole scrape raise. -/
theorem c1_witness :
    scrape_hotel_intelligent envBoom parkingSoup "https://y.example"
      none "2026-10-12" = Except.error "nlp failure" :=
  c1_amended envBoom parkingSoup "https://y.example" none "2026-10-12"
    (fun _ => Except.error "nlp failure") "nlp failure" rfl rfl rfl rfl


/-- All sixteen list-typed fields of the Record hold an actual list
(never `None`). -/
def list_fields_ok (i : IntelligentHotelInfo) : Bool :=
  i.restaurants.isSome && i.spa_services.isSome &&
  i.accessibility_features.isSome && i.bars_lounges.isSome &&
  i.room_types.isSome && i.room_amenities.isSome &&
  i.nearby_attractions.isSome && i.nearby_restaurants.isSome &&
  i.nearby_shopping.isSome && i.nearby_transportation.isSome &&
  i.concierge_services.isSome && i.event_services.isSome &&
  i.key_selling_points.isSome && i.target_audience.isSome &&
  i.unique_features.isSome && i.data_freshness_indicators.isSome

/-- `__post_init__` establishes the list-field invariant. -/
lemma lfo_post_init (i : IntelligentHotelInfo) :
    list_fields_ok (post_init i) = true := by
  rfl

lemma lfo_contactEntStep (i : IntelligentHotelInfo) (e : Ent) :
    list_fields_ok (contactEntStep i e) = list_fields_ok i := by
  unfold contactEntStep
  split
  · rfl
  · split <;> rfl

lemma lfo_applyPhonePatterns (re : String → String → Option ReMatch)
    (text : String) (i : IntelligentHotelInfo) :
    list_fields_ok (applyPhonePatterns re text i) = list_fields_ok i := by
  unfold applyPhonePatterns
  cases List.findSome? (fun p => re p text) phone_patterns <;> rfl

lemma lfo_applyEmailPattern (re : String → String → Option ReMatch)
    (text : String) (i : IntelligentHotelInfo) :
    list_fields_ok (applyEmailPattern re text i) = list_fields_ok i := by
  unfold applyEmailPattern
  cases re email_pattern text with
  | none => rfl
  | some m => cases hob : optStrTruthy i.email <;> rfl

lemma lfo_applyContactOpenai (d : PyDict) (i : IntelligentHotelInfo) :
    list_fields_ok (applyContactOpenai d i) = list_fields_ok i := by
  unfold applyContactOpenai
  cases dictGetTruthy d "phone" <;> cases dictGetTruthy d "email" <;>
    cases dictGetTruthy d "address" <;> cases dictGetTruthy d "city" <;>
    cases dictGetTruthy d "state" <;> cases dictGetTruthy d "zip_code" <;>
    cases dictGetTruthy d "hotel_name" <;> rfl

lemma lfo_applyPoliciesOpenai (d : PyDict) (i : IntelligentHotelInfo) :
    list_fields_ok (applyPoliciesOpenai d i) = list_fields_ok i := by
  unfold applyPoliciesOpenai
  cases dictGetTruthy d "checkin_time" <;> cases dictGetTruthy d "checkout_time" <;>
    cases dictGetTruthy d "cancellation_policy" <;> cases dictGetTruthy d "deposit_policy" <;>
    cases dictGetTruthy d "age_restrictions" <;> cases dictGetTruthy d "early_checkin_policy" <;>
    cases dictGetTruthy d "late_checkout_policy" <;> rfl

lemma lfo_applyTimePatterns (re : String → String → Option ReMatch)
    (text : String) (i : IntelligentHotelInfo) :
    list_fields_ok (applyTimePatterns re text i) = list_fields_ok i := by
  unfold applyTimePatterns
  cases List.findSome? (fun p => re p text) checkin_patterns <;>
    cases List.findSome? (fun p => re p text) checkout_patterns <;> rfl

lemma lfo_parkingCostType (c : String) (i : IntelligentHotelInfo) :
    list_fields_ok (parkingCostType c i) = list_fields_ok i := by
  unfold parkingCostType
  cases h1 : ["free", "complimentary", "no charge"].any (fun w => strContainsSub c w) <;>
    cases h2 : strContainsSub c "valet" <;>
    cases h3 : ["self-park", "self park", "self service"].any (fun w => strContainsSub c w) <;>
    rfl

lemma lfo_applyParking (re : String → String → Option ReMatch)
    (text : String) (i : IntelligentHotelInfo) :
    list_fields_ok (applyParking re text i) = list_fields_ok i := by
  unfold applyParking
  dsimp only
  cases hb : extract_context_around_keyword text "parking" 100 != "" with
  | false => rfl
  | true =>
      cases hm : re parking_cost_pattern (extract_context_around_keyword text "parking" 100) with
      | none => exact lfo_parkingCostType _ _
      | some m => exact lfo_parkingCostType _ _

lemma lfo_applyRoomService (re : String → String → Option ReMatch)
    (text : String) (i : IntelligentHotelInfo) :
    list_fields_ok (applyRoomService re text i) = list_fields_ok i := by
  unfold applyRoomService
  cases strContainsSub text "room service" <;> rfl

lemma lfo_applyBreakfast (text : String) (i : IntelligentHotelInfo) :
    list_fields_ok (applyBreakfast text i) = list_fields_ok i := by
  unfold applyBreakfast
  cases ["breakfast", "morning meal", "continental breakfast"].find?
      (fun k => strContainsSub text k) <;> rfl

lemma lfo_set_spa (i : IntelligentHotelInfo) (l : List String)
    (h : list_fields_ok i = true) :
    list_fields_ok { i with spa_services := some l } = true := by
  simp only [list_fields_ok, Bool.and_eq_true] at h ⊢
  simp only [Option.isSome_some]
  tauto

lemma lfo_set_restaurants (i : IntelligentHotelInfo) (l : List Val)
    (h : list_fields_ok i = true) :
    list_fields_ok { i with restaurants := some l } = true := by
  simp only [list_fields_ok, Bool.and_eq_true] at h ⊢
  simp only [Option.isSome_some]
  tauto

lemma lfo_set_room_amenities (i : IntelligentHotelInfo) (l : List String)
    (h : list_fields_ok i = true) :
    list_fields_ok { i with room_amenities := some l } = true := by
  simp only [list_fields_ok, Bool.and_eq_true] at h ⊢
  simp only [Option.isSome_some]
  tauto

lemma lfo_set_nearby_attractions (i : IntelligentHotelInfo) (l : List Val)
    (h : list_fields_ok i = true) :
    list_fields_ok { i with nearby_attractions := some l } = true := by
  simp only [list_fields_ok, Bool.and_eq_true] at h ⊢
  simp only [Option.isSome_some]
  tauto

lemma lfo_set_concierge (i : IntelligentHotelInfo) (l : List String)
    (h : list_fields_ok i = true) :
    list_fields_ok { i with concierge_services := some l } = true := by
  simp only [list_fields_ok, Bool.and_eq_true] at h ⊢
  simp only [Option.isSome_some]
  tauto

lemma lfo_set_rooms (i : IntelligentHotelInfo) (l : List Val) (l2 : List String)
    (h : list_fields_ok i = true) :
    list_fields_ok
      { i with
        room_types := some l
        room_amenities := some l2 } = true := by
  simp only [list_fields_ok, Bool.and_eq_true] at h ⊢
  simp only [Option.isSome_some]
  tauto

lemma lfo_set_nearby3 (i : IntelligentHotelInfo) (a b c : List Val)
    (h : list_fields_ok i = true) :
    list_fields_ok
      { i with
        nearby_attractions := some a
        nearby_restaurants := some b
        nearby_shopping := some c } = true := by
  simp only [list_fields_ok, Bool.and_eq_true] at h ⊢
  simp only [Option.isSome_some]
  tauto

lemma lfo_amenityCategoryStep (re : String → String → Option ReMatch)
    (text : String) (i : IntelligentHotelInfo) (cat : String × List String)
    (h : list_fields_ok i = true) :
    list_fields_ok (amenityCategoryStep re text i cat) = true := by
  unfold amenityCategoryStep
  cases cat.2.find? (fun k => strContainsSub text k) with
  | none => exact h
  | some keyword =>
      dsimp only
      (repeat' split) <;>
        (first | exact h | exact lfo_set_spa _ _ h)

lemma lfo_parseAiKV (key value : String) (i : IntelligentHotelInfo)
    (h : list_fields_ok i = true) :
    list_fields_ok (parseAiKV key value i) = true := by
  unfold parseAiKV
  cases h1 : (key == "HOTEL_NAME" && value != "[hotel name]")
  case true => exact h
  case false =>
    cases h2 : (key == "ADDRESS" && value != "[full address]")
    case true => exact h
    case false =>
      cases h3 : (key == "PHONE" && value != "[phone number]")
      case true => exact h
      case false =>
        cases h4 : (key == "EMAIL" && value != "[email address]")
        case true => exact h
        case false =>
          cases h5 : (key == "CHECK_IN" && value != "[check-in time]")
          case true => exact h
          case false =>
            cases h6 : (key == "CHECK_OUT" && value != "[check-out time]")
            case true => exact h
            case false =>
              cases h7 : (key == "AMENITIES" && value != "[list amenities separated by commas]")
              case true => exact lfo_set_room_amenities _ _ h
              case false =>
                cases h8 : (key == "DINING" && value != "[restaurant/dining options]")
                case true => exact lfo_set_restaurants _ _ h
                case false =>
                  cases h9 : (key == "SPA_SERVICES" && value != "[spa services available]")
                  case true => exact lfo_set_spa _ _ h
                  case false =>
                    cases h10 : (key == "NEARBY" && value != "[nearby attractions]")
                    case true => exact lfo_set_nearby_attractions _ _ h
                    case false =>
                      cases h11 : (key == "POLICIES" && value != "[important policies]")
                      case true =>
                          cases hcp : optStrTruthy i.cancellation_policy <;> exact h
                      case false => exact h

lemma lfo_parseAiLine (i : IntelligentHotelInfo) (line0 : String)
    (h : list_fields_ok i = true) :
    list_fields_ok (parseAiLine i line0) = true := by
  unfold parseAiLine
  split
  · exact lfo_parseAiKV _ _ _ h
  · exact h

lemma lfo_basic_content_extraction (env : ScraperEnv) (soup : Soup)
    (i : IntelligentHotelInfo) (h : list_fields_ok i = true) :
    list_fields_ok (basic_content_extraction env soup i) = true := by
  unfold basic_content_extraction
  dsimp only
  (repeat' split) <;>
    (first | exact h | exact lfo_set_room_amenities _ _ h)


/-- The NER fold of the contact fallback preserves the list-field mask. -/
lemma lfo_entsFold (ents : List Ent) (i : IntelligentHotelInfo) :
    list_fields_ok (ents.foldl contactEntStep i) = list_fields_ok i :=
  foldl_preserves (fun a => list_fields_ok a = list_fields_ok i) contactEntStep
    (fun a b ha => (lfo_contactEntStep a b).trans ha) ents i rfl

/-- The contact fallback preserves the list-field invariant. -/
lemma lfo_contactFallback (env : ScraperEnv) (soup : Soup)
    (i r : IntelligentHotelInfo) (h : list_fields_ok i = true)
    (hr : contactFallback env soup i = Except.ok r) : list_fields_ok r = true := by
  unfold contactFallback at hr
  dsimp only at hr
  cases ha : env.use_ai with
  | false =>
      rw [ha] at hr
      simp only [Bool.false_eq_true, if_false, Except.ok.injEq] at hr
      subst hr
      rw [lfo_applyEmailPattern, lfo_applyPhonePatterns]
      exact h
  | true =>
      rw [ha] at hr
      simp only [if_true] at hr
      cases hn : env.nlp with
      | none =>
          rw [hn] at hr
          simp only [Except.ok.injEq] at hr
          subst hr
          rw [lfo_applyEmailPattern, lfo_applyPhonePatterns]
          exact h
      | some f =>
          rw [hn] at hr
          dsimp only at hr
          cases hfe : f (pyTake 2000 soup.fullText) with
          | error e =>
              rw [hfe] at hr
              exact absurd hr (by simp)
          | ok ents =>
              rw [hfe] at hr
              simp only [Except.ok.injEq] at hr
              subst hr
              rw [lfo_applyEmailPattern, lfo_applyPhonePatterns, lfo_entsFold]
              exact h

/-- The contact extractor preserves the list-field invariant. -/
lemma lfo_extract_contact (env : ScraperEnv) (soup : Soup)
    (i r : IntelligentHotelInfo) (h : list_fields_ok i = true)
    (hr : extract_contact_info_ai env soup i = Except.ok r) :
    list_fields_ok r = true := by
  unfold extract_contact_info_ai at hr
  cases hu : env.use_openai with
  | false =>
      rw [hu] at hr
      simp only [Bool.false_eq_true, if_false] at hr
      exact lfo_contactFallback env soup i r h hr
  | true =>
      rw [hu] at hr
      simp only [if_true] at hr
      cases hd : extract_with_openai env (extract_meaningful_content soup.contentBlocks)
          "hotel_info" != [] with
      | false =>
          rw [hd] at hr
          simp only [Bool.false_eq_true, if_false] at hr
          exact lfo_contactFallback env soup i r h hr
      | true =>
          rw [hd] at hr
          simp only [if_true, Except.ok.injEq] at hr
          subst hr
          rw [lfo_applyContactOpenai]
          exact h

/-- The policies pattern fallback preserves the list-field mask. -/
lemma lfo_policies_fallback (env : ScraperEnv) (soup : Soup)
    (i : IntelligentHotelInfo) :
    list_fields_ok (extract_policies_fallback env soup i) = list_fields_ok i := by
  unfold extract_policies_fallback
  rw [lfo_applyParking, lfo_applyTimePatterns]

/-- The policies extractor preserves the list-field invariant. -/
lemma lfo_extract_policies (env : ScraperEnv) (soup : Soup)
    (i r : IntelligentHotelInfo) (h : list_fields_ok i = true)
    (hr : extract_policies_ai env soup i = Except.ok r) :
    list_fields_ok r = true := by
  unfold extract_policies_ai at hr
  cases hu : env.use_openai with
  | false =>
      rw [hu] at hr
      simp only [Bool.false_eq_true, if_false, Except.ok.injEq] at hr
      subst hr
      rw [lfo_policies_fallback]
      exact h
  | true =>
      rw [hu] at hr
      simp only [if_true] at hr
      cases hd : extract_with_openai env (extract_meaningful_content soup.contentBlocks)
          "policies" != [] with
      | false =>
          rw [hd] at hr
          simp only [Bool.false_eq_true, if_false, Except.ok.injEq] at hr
          subst hr
          rw [lfo_policies_fallback]
          exact h
      | true =>
          rw [hd] at hr
          simp only [if_true, Except.ok.injEq] at hr
          subst hr
          rw [lfo_applyPoliciesOpenai]
          exact h

/-- The amenities extractor preserves the list-field invariant. -/
lemma lfo_extract_amenities (env : ScraperEnv) (soup : Soup)
    (i r : IntelligentHotelInfo) (h : list_fields_ok i = true)
    (hr : extract_amenities_ai env soup i = Except.ok r) :
    list_fields_ok r = true := by
  unfold extract_amenities_ai at hr
  simp only [Except.ok.injEq] at hr
  subst hr
  exact foldl_preserves (fun a => list_fields_ok a = true)
    (amenityCategoryStep env.reSearch (pyLower soup.fullText))
    (fun a b ha => lfo_amenityCategoryStep _ _ a b ha) amenity_categories i h

/-- The dining extractor preserves the list-field invariant. -/
lemma lfo_extract_dining (env : ScraperEnv) (soup : Soup)
    (i r : IntelligentHotelInfo) (h : list_fields_ok i = true)
    (hr : extract_dining_info_ai env soup i = Except.ok r) :
    list_fields_ok r = true := by
  unfold extract_dining_info_ai at hr
  dsimp only at hr
  simp only [Except.ok.injEq] at hr
  subst hr
  rw [lfo_applyBreakfast, lfo_applyRoomService]
  exact lfo_set_restaurants _ _ h

/-- The nearby extractor preserves the list-field invariant. -/
lemma lfo_extract_nearby (env : ScraperEnv) (soup : Soup)
    (i r : IntelligentHotelInfo) (h : list_fields_ok i = true)
    (hr : extract_nearby_info_ai env soup i = Except.ok r) :
    list_fields_ok r = true := by
  unfold extract_nearby_info_ai at hr
  cases ha : env.use_ai with
  | false =>
      rw [ha] at hr
      simp only [Bool.false_eq_true, if_false, Except.ok.injEq] at hr
      subst hr
      exact h
  | true =>
      rw [ha] at hr
      simp only [if_true] at hr
      cases hn : env.nlp with
      | none =>
          rw [hn] at hr
          simp only [Except.ok.injEq] at hr
          subst hr
          exact h
      | some f =>
          rw [hn] at hr
          dsimp only at hr
          cases hfe : f (pyTake 3000 soup.fullText) with
          | error e =>
              rw [hfe] at hr
              exact absurd hr (by simp)
          | ok ents =>
              rw [hfe] at hr
              simp only [Except.ok.injEq] at hr
              subst hr
              exact lfo_set_nearby3 _ _ _ _ h

/-- The services extractor preserves the list-field invariant. -/
lemma lfo_extract_services (env : ScraperEnv) (soup : Soup)
    (i r : IntelligentHotelInfo) (h : list_fields_ok i = true)
    (hr : extract_services_ai env soup i = Except.ok r) :
    list_fields_ok r = true := by
  unfold extract_services_ai at hr
  simp only [Except.ok.injEq] at hr
  subst hr
  exact lfo_set_concierge _ _ h

/-- The rooms extractor preserves the list-field invariant. -/
lemma lfo_extract_rooms (env : ScraperEnv) (soup : Soup)
    (i r : IntelligentHotelInfo) (h : list_fields_ok i = true)
    (hr : extract_room_info_ai env soup i = Except.ok r) :
    list_fields_ok r = true := by
  unfold extract_room_info_ai at hr
  dsimp only at hr
  simp only [Except.ok.injEq] at hr
  subst hr
  exact lfo_set_rooms _ _ _ h

/-- `_parse_ai_response` preserves the list-field invariant. -/
lemma lfo_parse_ai_response (resp : String) (i : IntelligentHotelInfo)
    (h : list_fields_ok i = true) :
    list_fields_ok (parse_ai_response resp i) = true :=
  foldl_preserves (fun a => list_fields_ok a = true) parseAiLine
    (fun a b ha => lfo_parseAiLine a b ha) (pySplit resp "\n") i h

/-- `_generate_ai_insights` preserves the list-field invariant. -/
lemma lfo_generate_ai_insights (env : ScraperEnv) (soup : Soup)
    (i : IntelligentHotelInfo) (h : list_fields_ok i = true) :
    list_fields_ok (generate_ai_insights env soup i) = true := by
  unfold generate_ai_insights
  cases ha : env.use_ai with
  | false => exact h
  | true =>
      dsimp only
      cases hg : env.textGen with
      | none => exact h
      | some g =>
          dsimp only
          cases g (pyTake 1500 (extract_meaningful_content soup.contentBlocks)) with
          | ok resp => exact lfo_parse_ai_response resp i h
          | error e => exact lfo_basic_content_extraction env soup i h

/-- The gathered extraction tasks preserve the list-field invariant. -/
lemma lfo_runExtraction (env : ScraperEnv) (soup : Soup)
    (i r : IntelligentHotelInfo) (h : list_fields_ok i = true)
    (hr : runExtraction env soup i = Except.ok r) : list_fields_ok r = true := by
  unfold runExtraction at hr
  cases h1 : extract_contact_info_ai env soup i with
  | error e => rw [h1] at hr; exact absurd hr (by simp)
  | ok i1 =>
    rw [h1] at hr
    dsimp only at hr
    have hl1 := lfo_extract_contact env soup i i1 h h1
    cases h2 : extract_policies_ai env soup i1 with
    | error e => rw [h2] at hr; exact absurd hr (by simp)
    | ok i2 =>
      rw [h2] at hr
      dsimp only at hr
      have hl2 := lfo_extract_policies env soup i1 i2 hl1 h2
      cases h3 : extract_amenities_ai env soup i2 with
      | error e => rw [h3] at hr; exact absurd hr (by simp)
      | ok i3 =>
        rw [h3] at hr
        dsimp only at hr
        have hl3 := lfo_extract_amenities env soup i2 i3 hl2 h3
        cases h4 : extract_dining_info_ai env soup i3 with
        | error e => rw [h4] at hr; exact absurd hr (by simp)
        | ok i4 =>
          rw [h4] at hr
          dsimp only at hr
          have hl4 := lfo_extract_dining env soup i3 i4 hl3 h4
          cases h5 : extract_nearby_info_ai env soup i4 with
          | error e => rw [h5] at hr; exact absurd hr (by simp)
          | ok i5 =>
            rw [h5] at hr
            dsimp only at hr
            have hl5 := lfo_extract_nearby env soup i4 i5 hl4 h5
            cases h6 : extract_services_ai env soup i5 with
            | error e => rw [h6] at hr; exact absurd hr (by simp)
            | ok i6 =>
              rw [h6] at hr
              dsimp only at hr
              have hl6 := lfo_extract_services env soup i5 i6 hl5 h6
              exact lfo_extract_rooms env soup i6 r hl6 hr

/-- Finalization preserves the list-field invariant. -/
lemma lfo_finalizeScrape (env : ScraperEnv) (soup : Soup)
    (i r : IntelligentHotelInfo) (h : list_fields_ok i = true)
    (hr : finalizeScrape env soup i = Except.ok r) : list_fields_ok r = true := by
  unfold finalizeScrape at hr
  cases hrun : runExtraction env soup i with
  | error e => rw [hrun] at hr; exact absurd hr (by simp)
  | ok r1 =>
      rw [hrun] at hr
      dsimp only at hr
      simp only [Except.ok.injEq] at hr
      subst hr
      have hl1 := lfo_runExtraction env soup i r1 h hrun
      cases ha : env.use_ai with
      | false => exact hl1
      | true => exact lfo_generate_ai_insights env soup r1 hl1

/-- A successful scrape returns a record satisfying the list-field
invariant (the attached confidence score leaves the list fields
untouched). -/
lemma lfo_scrape (env : ScraperEnv) (soup : Soup) (url : String)
    (hotelName : Option String) (now : String) (r : IntelligentHotelInfo)
    (hr : scrape_hotel_intelligent env soup url hotelName now = Except.ok r) :
    list_fields_ok r = true := by
  unfold scrape_hotel_intelligent at hr
  exact lfo_finalizeScrape env soup _ r (lfo_post_init _) hr

/-- C8: every list-typed field of a Record holds an actual (possibly
empty) ordered sequence and is never null, at every point after
construction: `__post_init__` establishes the invariant on any freshly
constructed record, each of the seven field-group extraction steps
preserves it (whenever the step completes with a record), the AI-insight
step preserves it, and every record a successful scrape returns satisfies
it. -/
theorem c8_list_fields_never_null :
    (∀ i : IntelligentHotelInfo, list_fields_ok (post_init i) = true) ∧
    (∀ (env : ScraperEnv) (soup : Soup) (i r : IntelligentHotelInfo),
      list_fields_ok i = true → extract_contact_info_ai env soup i = Except.ok r →
      list_fields_ok r = true) ∧
    (∀ (env : ScraperEnv) (soup : Soup) (i r : IntelligentHotelInfo),
      list_fields_ok i = true → extract_policies_ai env soup i = Except.ok r →
      list_fields_ok r = true) ∧
    (∀ (env : ScraperEnv) (soup : Soup) (i r : IntelligentHotelInfo),
      list_fields_ok i = true → extract_amenities_ai env soup i = Except.ok r →
      list_fields_ok r = true) ∧
    (∀ (env : ScraperEnv) (soup : Soup) (i r : IntelligentHotelInfo),
      list_fields_ok i = true → extract_dining_info_ai env soup i = Except.ok r →
      list_fields_ok r = true) ∧
    (∀ (env : ScraperEnv) (soup : Soup) (i r : IntelligentHotelInfo),
      list_fields_ok i = true → extract_nearby_info_ai env soup i = Except.ok r →
      list_fields_ok r = true) ∧
    (∀ (env : ScraperEnv) (soup : Soup) (i r : IntelligentHotelInfo),
      list_fields_ok i = true → extract_services_ai env soup i = Except.ok r →
      list_fields_ok r = true) ∧
    (∀ (env : ScraperEnv) (soup : Soup) (i r : IntelligentHotelInfo),
      list_fields_ok i = true → extract_room_info_ai env soup i = Except.ok r →
      list_fields_ok r = true) ∧
    (∀ (env : ScraperEnv) (soup : Soup) (i : IntelligentHotelInfo),
      list_fields_ok i = true →
      list_fields_ok (generate_ai_insights env soup i) = true) ∧
    (∀ (env : ScraperEnv) (soup : Soup) (url : String) (hotelName : Option String)
        (now : String) (r : IntelligentHotelInfo),
      scrape_hotel_intelligent env soup url hotelName now = Except.ok r →
      list_fields_ok r = true) :=
  ⟨lfo_post_init,
   fun env soup i r h hr => lfo_extract_contact env soup i r h hr,
   fun env soup i r h hr => lfo_extract_policies env soup i r h hr,
   fun env soup i r h hr => lfo_extract_amenities env soup i r h hr,
   fun env soup i r h hr => lfo_extract_dining env soup i r h hr,
   fun env soup i r h hr => lfo_extract_nearby env soup i r h hr,
   fun env soup i r h hr => lfo_extract_services env soup i r h hr,
   fun env soup i r h hr => lfo_extract_rooms env soup i r h hr,
   fun env soup i h => lfo_generate_ai_insights env soup i h,
   fun env soup url hotelName now r hr => lfo_scrape env soup url hotelName now r hr⟩

/-- Witness for C8: the invariant holds on a freshly constructed record
and is preserved through the AI-insight step at a concrete configuration. -/
theorem c8_witness :
    list_fields_ok (post_init (defaultInfo "Grand Hotel" "https://x.example" "2026-10-12")) = true ∧
    list_fields_ok (generate_ai_insights patternOnlyEnv noParkingSoup exhaustedBase) = true :=
  ⟨c8_list_fields_never_null.1 _,
   c8_list_fields_never_null.2.2.2.2.2.2.2.2.1 patternOnlyEnv noParkingSoup
     exhaustedBase rfl⟩
